import Mathlib

/-!
Shallow embedding of `weasyprint/draw.py`: the paint pipeline that takes an
"after layout" box tree and draws it onto a cairo surface.

Conventions of the embedding:

* All lengths, coordinates and color channels are exact rationals (`ℚ`).
* Every cairo call that the module performs is recorded as a `DrawOp`; a
  drawing function returns the list of operations it emits, in emission order.
* Fallible Python behavior (failed tuple unpacking, `assert`, list `IndexError`,
  attribute errors on objects of the wrong class) is modelled with
  `Except String`.
* The cairo context state that the module only *queries* (the current
  transformation matrix for `user_to_device` / `user_to_device_distance`, the
  clip extents for `clip_extents`) is carried in a `Ctx` record; the
  transformation matrix is updated by the transform helpers, while
  `clip_extents` is an opaque query of the surface's clip state.
* The in-place mutations performed by the module (the `+=` on
  `table.column_positions` in `draw_collapsed_borders`, and the one-shot
  replacement invalidation in `draw_replacedbox`) are modelled by returning the
  updated box next to the emitted operations.
-/

namespace WeasyDraw

/-- Python 2 `round`: round half away from zero (all arguments rounded in this
module are nonnegative, where this agrees with `⌊q + 1/2⌋`). The result is used
in further rational arithmetic, so we keep it in `ℚ`. -/
def python_round (q : ℚ) : ℚ :=
  if 0 ≤ q then ((⌊q + 1/2⌋ : ℤ) : ℚ) else ((⌈q - 1/2⌉ : ℤ) : ℚ)

/-- Exact value of `((x2 - x1)**2 + (y2 - y1)**2) ** 0.5` for the axis-aligned
segments this module draws (every border edge is a side of a rectangle and
every collapsed-border segment is a table grid line, so `dx = 0` or `dy = 0`
at every call site; the fallback branch is never reached by the module). -/
def hypot_exact (dx dy : ℚ) : ℚ :=
  if dx = 0 then |dy| else if dy = 0 then |dx| else 0

/-- An RGBA color, each channel a rational (CSS colors are in `[0, 1]`, but
`lighten` can leave the range; cairo clamps when painting). -/
structure Color where
  red : ℚ
  green : ℚ
  blue : ℚ
  alpha : ℚ
deriving DecidableEq, Repr

/-- `lighten(color, offset)`: a lighter color (or darker, for negative
offsets); alpha is preserved. -/
def lighten (color : Color) (offset : ℚ) : Color :=
  { red := color.red + offset
    green := color.green + offset
    blue := color.blue + offset
    alpha := color.alpha }

inductive Visibility where
  | visible
  | hidden
deriving DecidableEq, Repr

inductive Overflow where
  | visible
  | hidden
  | scroll
  | auto
deriving DecidableEq, Repr

/-- The eight border line styles rendered by `draw_border_segment` (the
function asserts that no other value reaches it; `none`/`hidden` borders get
used width 0 upstream and are filtered out by the callers). -/
inductive BorderStyle where
  | solid
  | inset
  | outset
  | groove
  | ridge
  | double
  | dotted
  | dashed
deriving DecidableEq, Repr

/-- Normalized values of the `image-rendering` property. -/
inductive ImageRendering where
  | optimizespeed
  | auto
  | optimizequality
deriving DecidableEq, Repr

/-- cairo FILTER values. -/
inductive CairoFilter where
  | fast
  | good
  | best
deriving DecidableEq, Repr

/-- `IMAGE_RENDERING_TO_FILTER`. -/
def image_rendering_to_filter : ImageRendering → CairoFilter
  | .optimizespeed => .fast
  | .auto => .good
  | .optimizequality => .best

/-- cairo pattern extend modes used by the module. -/
inductive CairoExtend where
  | extendNone
  | extendRepeat
deriving DecidableEq, Repr

/-- The rectangle kinds understood by `box_rectangle` and the
`background-origin` / `background-clip` properties. -/
inductive BoxArea where
  | borderBox
  | paddingBox
  | contentBox
deriving DecidableEq, Repr

inductive BgRepeat where
  | repeatBoth
  | repeatX
  | repeatY
  | noRepeat
deriving DecidableEq, Repr

inductive Attachment where
  | scroll
  | fixed
deriving DecidableEq, Repr

inductive BorderCollapse where
  | separate
  | collapse
deriving DecidableEq, Repr

inductive Side where
  | top
  | right
  | bottom
  | left
deriving DecidableEq, Repr

/-- A component of the `clip` property rectangle: `'auto'` or a length. -/
inductive ClipValue where
  | auto
  | length (v : ℚ)
deriving DecidableEq, Repr

/-- A resolved length-or-percentage value, as consumed by `percentage`. -/
inductive Dimension where
  | px (value : ℚ)
  | percent (value : ℚ)
deriving DecidableEq, Repr

/-- `percentage(value, refer_to)`: the evaluated percentage value, or the
value unchanged. -/
def percentage (value : Dimension) (refer_to : ℚ) : ℚ :=
  match value with
  | .px v => v
  | .percent v => refer_to * v / 100

/-- One axis of an explicit `background-size` pair: `'auto'` or a dimension. -/
inductive SizeSpec where
  | auto
  | dimension (d : Dimension)
deriving DecidableEq, Repr

inductive BgSize where
  | cover
  | contain
  | explicitSize (w h : SizeSpec)
deriving DecidableEq, Repr

/-- One entry of the `transform` property list. -/
inductive Transform2d where
  | scale (sx sy : ℚ)
  | rotate (angle : ℚ)
  | translate (tx ty : Dimension)
  | skewx (angle : ℚ)
  | skewy (angle : ℚ)
  | matrix (xx yx xy yy x0 y0 : ℚ)
deriving DecidableEq, Repr

/-- The `text-decoration` value set. -/
structure TextDecoration where
  overline : Bool
  underline : Bool
  line_through : Bool
deriving DecidableEq, Repr

/-- The resolved style properties read by this module. -/
structure Style where
  visibility : Visibility
  opacity : ℚ
  clip : Option (ClipValue × ClipValue × ClipValue × ClipValue)
  overflow : Overflow
  transform : List Transform2d
  transform_origin : Dimension × Dimension
  background_color : Color
  background_image : Option String
  background_size : BgSize
  background_position : Dimension × Dimension
  background_repeat : BgRepeat
  background_attachment : Attachment
  background_origin : BoxArea
  background_clip : BoxArea
  border_collapse : BorderCollapse
  border_top_color : Color
  border_right_color : Color
  border_bottom_color : Color
  border_left_color : Color
  border_top_style : BorderStyle
  border_right_style : BorderStyle
  border_bottom_style : BorderStyle
  border_left_style : BorderStyle
  image_rendering : ImageRendering
  color : Color
  font_size : ℚ
  text_decoration : TextDecoration
deriving DecidableEq, Repr

/-- The precomputed geometry of a box: the values of the accessor methods
(`border_box_x()`, …) and geometry attributes read by this module. -/
structure Geom where
  position_x : ℚ
  position_y : ℚ
  border_box_x : ℚ
  border_box_y : ℚ
  border_width : ℚ
  border_height : ℚ
  padding_box_x : ℚ
  padding_box_y : ℚ
  padding_width : ℚ
  padding_height : ℚ
  content_box_x : ℚ
  content_box_y : ℚ
  width : ℚ
  height : ℚ
  border_top_width : ℚ
  border_right_width : ℚ
  border_bottom_width : ℚ
  border_left_width : ℚ
  baseline : ℚ
deriving DecidableEq, Repr

/-- The value of `box.replacement` for a replaced box: either the live
`(pattern, intrinsic_width, intrinsic_height)` triple, or the marker string
`draw_replacedbox` assigns after painting (an object incompatible with the
usual 3-tuple, so that a second unpacking raises). -/
inductive Replacement where
  | image (pattern : ℕ) (intrinsic_width intrinsic_height : ℚ)
  | removedMarker
deriving DecidableEq, Repr

/-- One resolved cell of the table border-conflict grid:
`score, (style, width, color)`. -/
structure BorderCell where
  score : ℚ
  style : BorderStyle
  width : ℚ
  color : Color
deriving DecidableEq, Repr

/-- The box subclass tags this module dispatches on via `isinstance`. -/
inductive BoxTag where
  | block
  | margin
  | inlineBlock
  | inline
  | line
  | text
  | blockReplaced
  | inlineReplaced
  | table
  | tableRowGroup
  | tableRow
  | tableCell
  | tableColumnGroup
  | tableColumn
  | page
deriving DecidableEq, Repr

/-- A primitive drawing operation issued against the cairo context (or a
pattern object obtained from the image resolver). -/
inductive DrawOp where
  | save
  | restore
  | rectangle (x y w h : ℚ)
  | clip
  | pushGroup
  | popGroupToSource
  | paintWithAlpha (alpha : ℚ)
  | setAntialiasNone
  | setSourceRgba (red green blue alpha : ℚ)
  | paint
  | moveTo (x y : ℚ)
  | lineTo (x y : ℚ)
  | relLineTo (dx dy : ℚ)
  | translate (tx ty : ℚ)
  | scale (sx sy : ℚ)
  | rotate (angle : ℚ)
  | transformMatrix (xx yx xy yy x0 y0 : ℚ)
  | setLineWidth (w : ℚ)
  | setLineCapRound
  | setDash (dashes : List ℚ)
  | stroke
  | setSource (pattern : ℕ)
  | patternSetExtend (pattern : ℕ) (mode : CairoExtend)
  | patternSetFilter (pattern : ℕ) (filter : CairoFilter)
  | showFirstLine (layout : ℕ) (hinting : Bool)
deriving DecidableEq, Repr

/-- A cairo transformation matrix (`cairo.Matrix` layout:
`x_dev = xx·x + xy·y + x0`, `y_dev = yx·x + yy·y + y0`). -/
structure RMat where
  xx : ℚ
  yx : ℚ
  xy : ℚ
  yy : ℚ
  x0 : ℚ
  y0 : ℚ
deriving DecidableEq, Repr

/-- The identity matrix. -/
def RMat.id : RMat := ⟨1, 0, 0, 1, 0, 0⟩

/-- Matrix composition: `m.compose n` first applies `n`, then `m` (cairo's
`context.transform(M)` composes the CTM with `M` this way). -/
def RMat.compose (m n : RMat) : RMat :=
  { xx := m.xx * n.xx + m.xy * n.yx
    yx := m.yx * n.xx + m.yy * n.yx
    xy := m.xx * n.xy + m.xy * n.yy
    yy := m.yx * n.xy + m.yy * n.yy
    x0 := m.xx * n.x0 + m.xy * n.y0 + m.x0
    y0 := m.yx * n.x0 + m.yy * n.y0 + m.y0 }

/-- The queryable cairo context state consumed by this module: the hinting
flag and image resolver installed by `make_cairo_context`, the current
transformation matrix (read through `user_to_device` and
`user_to_device_distance`), the clip extents (an opaque query of the clip
state, per the drawing-surface interface), and the trigonometric functions of
the `math` library as rational-valued oracles. -/
structure Ctx where
  enable_hinting : Bool
  get_image_from_uri : String → Option (ℕ × ℚ × ℚ)
  mat : RMat
  clip_extents : ℚ × ℚ × ℚ × ℚ
  tan_oracle : ℚ → ℚ
  cos_oracle : ℚ → ℚ
  sin_oracle : ℚ → ℚ

/-- `context.user_to_device(x, y)` (a point transform, translation applied). -/
def Ctx.user_to_device (ctx : Ctx) (x y : ℚ) : ℚ × ℚ :=
  (ctx.mat.xx * x + ctx.mat.xy * y + ctx.mat.x0,
   ctx.mat.yx * x + ctx.mat.yy * y + ctx.mat.y0)

/-- `context.user_to_device_distance(x, y)` (a vector transform, no
translation). -/
def Ctx.user_to_device_distance (ctx : Ctx) (x y : ℚ) : ℚ × ℚ :=
  (ctx.mat.xx * x + ctx.mat.xy * y, ctx.mat.yx * x + ctx.mat.yy * y)

/-- CTM update for `context.translate(tx, ty)`. -/
def Ctx.translateBy (ctx : Ctx) (tx ty : ℚ) : Ctx :=
  { ctx with mat := ctx.mat.compose ⟨1, 0, 0, 1, tx, ty⟩ }

/-- CTM update for `context.scale(sx, sy)`. -/
def Ctx.scaleBy (ctx : Ctx) (sx sy : ℚ) : Ctx :=
  { ctx with mat := ctx.mat.compose ⟨sx, 0, 0, sy, 0, 0⟩ }

/-- CTM update for `context.transform(cairo.Matrix(…))`. -/
def Ctx.transformBy (ctx : Ctx) (m : RMat) : Ctx :=
  { ctx with mat := ctx.mat.compose m }

/-- CTM update for `context.rotate(angle)` (the `math` library cosine and
sine are taken from the context's oracles). -/
def Ctx.rotateBy (ctx : Ctx) (angle : ℚ) : Ctx :=
  ctx.transformBy ⟨ctx.cos_oracle angle, ctx.sin_oracle angle,
                   -(ctx.sin_oracle angle), ctx.cos_oracle angle, 0, 0⟩

/-- `get_rectangle_edges(x, y, width, height)`: the 4 edges of a rectangle in
clock-wise order starting from the top, each edge a `(start_point, end_point)`
pair. -/
def get_rectangle_edges (x y width height : ℚ) : List ((ℚ × ℚ) × (ℚ × ℚ)) :=
  let corners := [(x, y), (x + width, y), (x + width, y + height), (x, y + height)]
  let shifted_corners := corners.drop 1 ++ corners.take 1
  corners.zip shifted_corners

/-- `xy_offset(x, y, offset_x, offset_y, offset)`: increment X and Y
coordinates by the given offsets. -/
def xy_offset (x y offset_x offset_y offset : ℚ) : ℚ × ℚ :=
  (x + offset_x * offset, y + offset_y * offset)

/-- `draw_border_segment(context, style, width, color, side, border_edge,
padding_edge)`: draw one border side in one of the eight styles, inside a
`with context.stacked()` scope. -/
def draw_border_segment (ctx : Ctx) (style : BorderStyle) (width : ℚ)
    (color : Color) (side : Side)
    (border_edge padding_edge : (ℚ × ℚ) × (ℚ × ℚ)) : List DrawOp :=
  let offsets : ℚ × ℚ :=
    match side with
    | .top => (0, 1)
    | .bottom => (0, -1)
    | .left => (1, 0)
    | .right => (-1, 0)
  let x_offset := offsets.1
  let y_offset := offsets.2
  -- Borders smaller than 1 device unit would disappear without anti-aliasing;
  -- `math.hypot(p) >= 1` holds exactly when `p.1 ^ 2 + p.2 ^ 2 >= 1`.
  let u := ctx.user_to_device width 0
  let v := ctx.user_to_device 0 width
  let hinting_ops : List DrawOp :=
    if ctx.enable_hinting ∧ 1 ≤ u.1 ^ 2 + u.2 ^ 2 ∧ 1 ≤ v.1 ^ 2 + v.2 ^ 2 then
      [DrawOp.setAntialiasNone]
    else []
  -- Clip on the trapezoid formed by the border edge (longer) and the padding
  -- edge (shorter), for any style except dotted/dashed.
  let clip_ops : List DrawOp :=
    if style = BorderStyle.dotted ∨ style = BorderStyle.dashed then []
    else
      let border_start := border_edge.1
      let border_stop := border_edge.2
      let padding_start := padding_edge.1
      let padding_stop := padding_edge.2
      [DrawOp.moveTo border_start.1 border_start.2,
       DrawOp.lineTo border_stop.1 border_stop.2,
       DrawOp.lineTo padding_stop.1 padding_stop.2,
       DrawOp.lineTo padding_start.1 padding_start.2,
       DrawOp.lineTo border_start.1 border_start.2,
       DrawOp.clip]
  let style_ops : List DrawOp :=
    match style with
    | .solid =>
      -- Fill the whole trapezoid.
      [DrawOp.paint]
    | .inset | .outset =>
      let do_lighten : Bool :=
        (side == Side.top || side == Side.left) != (style == BorderStyle.inset)
      let factor : ℚ := if do_lighten then 1 else -1
      let c := lighten color (0.5 * factor)
      [DrawOp.setSourceRgba c.red c.green c.blue c.alpha, DrawOp.paint]
    | .groove | .ridge =>
      -- Divide the width in 2 and stroke lines in different colors.
      let do_lighten : Bool :=
        (side == Side.top || side == Side.left) != (style == BorderStyle.groove)
      let factor : ℚ := if do_lighten then 1 else -1
      let b1 := border_edge.1
      let b2 := border_edge.2
      -- From the border edge to the center of the first line.
      let q1 := xy_offset b1.1 b1.2 x_offset y_offset (width / 4)
      let q2 := xy_offset b2.1 b2.2 x_offset y_offset (width / 4)
      let c1 := lighten color (0.5 * factor)
      -- Between the centers of both lines. 1/4 + 1/4 = 1/2.
      let r1 := xy_offset q1.1 q1.2 x_offset y_offset (width / 2)
      let r2 := xy_offset q2.1 q2.2 x_offset y_offset (width / 2)
      let c2 := lighten color (-0.5 * factor)
      [DrawOp.setLineWidth (width / 2),
       DrawOp.moveTo q1.1 q1.2, DrawOp.lineTo q2.1 q2.2,
       DrawOp.setSourceRgba c1.red c1.green c1.blue c1.alpha, DrawOp.stroke,
       DrawOp.moveTo r1.1 r1.2, DrawOp.lineTo r2.1 r2.2,
       DrawOp.setSourceRgba c2.red c2.green c2.blue c2.alpha, DrawOp.stroke]
    | .double =>
      -- Divide the width in 3 and stroke both outer lines.
      let b1 := border_edge.1
      let b2 := border_edge.2
      -- From the border edge to the center of the first line.
      let q1 := xy_offset b1.1 b1.2 x_offset y_offset (width / 6)
      let q2 := xy_offset b2.1 b2.2 x_offset y_offset (width / 6)
      -- Between the centers of both lines. 1/6 + 1/3 + 1/6 = 2/3.
      let r1 := xy_offset q1.1 q1.2 x_offset y_offset (2 * width / 3)
      let r2 := xy_offset q2.1 q2.2 x_offset y_offset (2 * width / 3)
      [DrawOp.setLineWidth (width / 3),
       DrawOp.moveTo q1.1 q1.2, DrawOp.lineTo q2.1 q2.2, DrawOp.stroke,
       DrawOp.moveTo r1.1 r1.2, DrawOp.lineTo r2.1 r2.2, DrawOp.stroke]
    | .dotted | .dashed =>
      let b1 := border_edge.1
      let b2 := border_edge.2
      let pts : (ℚ × ℚ) × (ℚ × ℚ) :=
        if style == BorderStyle.dotted then
          -- Half-way from the extremities of the border and padding edges.
          let pd1 := padding_edge.1
          let pd2 := padding_edge.2
          (((b1.1 + pd1.1) / 2, (b1.2 + pd1.2) / 2),
           ((b2.1 + pd2.1) / 2, (b2.2 + pd2.2) / 2))
        else
          -- dashed: from the border edge to the middle.
          (xy_offset b1.1 b1.2 x_offset y_offset (width / 2),
           xy_offset b2.1 b2.2 x_offset y_offset (width / 2))
      let x1 := pts.1.1
      let y1 := pts.1.2
      let x2 := pts.2.1
      let y2 := pts.2.2
      let length := hypot_exact (x2 - x1) (y2 - y1)
      let dash := 2 * width
      if style == BorderStyle.dotted then
        let dash :=
          if (ctx.user_to_device_distance width 0).1 > 3 then
            -- Round so that dash is a divisor of length, but not if the dots
            -- would be too small.
            length / python_round (length / dash)
          else dash
        [DrawOp.setLineCapRound, DrawOp.setDash [0, dash],
         DrawOp.moveTo x1 y1, DrawOp.lineTo x2 y2,
         DrawOp.setLineWidth width, DrawOp.stroke]
      else
        -- Round so that 2*dash is a divisor of length.
        let dash := length / (2 * python_round (length / (2 * dash)))
        [DrawOp.setDash [dash],
         DrawOp.moveTo x1 y1, DrawOp.lineTo x2 y2,
         DrawOp.setLineWidth width, DrawOp.stroke]
  [DrawOp.save,
   DrawOp.setSourceRgba color.red color.green color.blue color.alpha] ++
    hinting_ops ++ clip_ops ++ style_ops ++ [DrawOp.restore]

end WeasyDraw

namespace WeasyDraw

mutual

/-- A laid-out box (external input, produced by the layout stage). The
constructor gathers the attributes this module reads: the `isinstance` tag,
an object identity (for Python `is` checks), the resolved style, the
geometry accessors, the children, and the kind-specific attributes
(`outside_list_marker`, `replacement`, `pango_layout`, and the table grid
data `column_widths` / `column_positions` / `collapsed_border_grid` /
`skipped_rows` / `column_groups`). -/
inductive Box where
  | mk
    (tag : BoxTag)
    (objectId : ℕ)
    (style : Style)
    (geom : Geom)
    (children : List BoxOrContext)
    (outside_list_marker : Option BoxOrContext)
    (replacement : Option Replacement)
    (pango_layout : ℕ)
    (column_widths : List ℚ)
    (column_positions : List ℚ)
    (collapsed_border_grid : List (List BorderCell) × List (List BorderCell))
    (skipped_rows : ℕ)
    (column_groups : List Box)
    : Box

/-- A child slot of a box: either a plain box, or a `StackingContext` (the
stacking-context builder wraps stacking-context-establishing inline-blocks
this way, and `draw_inline_level` dispatches on `isinstance(box,
StackingContext)`). -/
inductive BoxOrContext where
  | ofBox (b : Box) : BoxOrContext
  | ofContext (c : StackingContext) : BoxOrContext

/-- A stacking context: one root box plus the ordered child-context sequences
and in-flow block-level descendant lists consumed by
`draw_stacking_context`. -/
inductive StackingContext where
  | mk
    (page : Box)
    (box : Box)
    (block_level_boxes : List Box)
    (blocks_and_cells : List Box)
    (negative_z_contexts : List StackingContext)
    (float_contexts : List StackingContext)
    (zero_z_contexts : List StackingContext)
    (positive_z_contexts : List StackingContext)
    : StackingContext

end

def Box.tag : Box → BoxTag
  | .mk t _ _ _ _ _ _ _ _ _ _ _ _ => t

def Box.objectId : Box → ℕ
  | .mk _ i _ _ _ _ _ _ _ _ _ _ _ => i

def Box.style : Box → Style
  | .mk _ _ s _ _ _ _ _ _ _ _ _ _ => s

def Box.geom : Box → Geom
  | .mk _ _ _ g _ _ _ _ _ _ _ _ _ => g

def Box.children : Box → List BoxOrContext
  | .mk _ _ _ _ c _ _ _ _ _ _ _ _ => c

def Box.outside_list_marker : Box → Option BoxOrContext
  | .mk _ _ _ _ _ m _ _ _ _ _ _ _ => m

def Box.replacement : Box → Option Replacement
  | .mk _ _ _ _ _ _ r _ _ _ _ _ _ => r

def Box.pango_layout : Box → ℕ
  | .mk _ _ _ _ _ _ _ p _ _ _ _ _ => p

def Box.column_widths : Box → List ℚ
  | .mk _ _ _ _ _ _ _ _ w _ _ _ _ => w

def Box.column_positions : Box → List ℚ
  | .mk _ _ _ _ _ _ _ _ _ p _ _ _ => p

def Box.collapsed_border_grid : Box → List (List BorderCell) × List (List BorderCell)
  | .mk _ _ _ _ _ _ _ _ _ _ g _ _ => g

def Box.skipped_rows : Box → ℕ
  | .mk _ _ _ _ _ _ _ _ _ _ _ s _ => s

def Box.column_groups : Box → List Box
  | .mk _ _ _ _ _ _ _ _ _ _ _ _ g => g

/-- The in-place rebinding `box.replacement = …` of `draw_replacedbox`. -/
def Box.set_replacement : Box → Option Replacement → Box
  | .mk t i s g c m _ p w q b k h, r => .mk t i s g c m r p w q b k h

/-- The in-place `column_positions += […]` of `draw_collapsed_borders`
(Python list `+=` extends the list object in place, so the table attribute
is mutated). -/
def Box.set_column_positions : Box → List ℚ → Box
  | .mk t i s g c m r p w _ b k h, q => .mk t i s g c m r p w q b k h

def Box.position_x (b : Box) : ℚ := b.geom.position_x
def Box.position_y (b : Box) : ℚ := b.geom.position_y
def Box.border_box_x (b : Box) : ℚ := b.geom.border_box_x
def Box.border_box_y (b : Box) : ℚ := b.geom.border_box_y
def Box.border_width (b : Box) : ℚ := b.geom.border_width
def Box.border_height (b : Box) : ℚ := b.geom.border_height
def Box.padding_box_x (b : Box) : ℚ := b.geom.padding_box_x
def Box.padding_box_y (b : Box) : ℚ := b.geom.padding_box_y
def Box.padding_width (b : Box) : ℚ := b.geom.padding_width
def Box.padding_height (b : Box) : ℚ := b.geom.padding_height
def Box.content_box_x (b : Box) : ℚ := b.geom.content_box_x
def Box.content_box_y (b : Box) : ℚ := b.geom.content_box_y
def Box.width (b : Box) : ℚ := b.geom.width
def Box.height (b : Box) : ℚ := b.geom.height
def Box.baseline (b : Box) : ℚ := b.geom.baseline

def StackingContext.page : StackingContext → Box
  | .mk p _ _ _ _ _ _ _ => p

def StackingContext.box : StackingContext → Box
  | .mk _ b _ _ _ _ _ _ => b

def StackingContext.block_level_boxes : StackingContext → List Box
  | .mk _ _ l _ _ _ _ _ => l

def StackingContext.blocks_and_cells : StackingContext → List Box
  | .mk _ _ _ l _ _ _ _ => l

def StackingContext.negative_z_contexts : StackingContext → List StackingContext
  | .mk _ _ _ _ l _ _ _ => l

def StackingContext.float_contexts : StackingContext → List StackingContext
  | .mk _ _ _ _ _ l _ _ => l

def StackingContext.zero_z_contexts : StackingContext → List StackingContext
  | .mk _ _ _ _ _ _ l _ => l

def StackingContext.positive_z_contexts : StackingContext → List StackingContext
  | .mk _ _ _ _ _ _ _ l => l

/-- Attribute access (`.children`, `.height`, …) on a child slot that must be
a plain box; a `StackingContext` there raises an `AttributeError`. -/
def as_box : BoxOrContext → Except String Box
  | .ofBox b => .ok b
  | .ofContext _ => .error "AttributeError: not a box"

/-- `getattr(box, 'border_%s_width' % side)`. -/
def border_side_width (box : Box) : Side → ℚ
  | .top => box.geom.border_top_width
  | .right => box.geom.border_right_width
  | .bottom => box.geom.border_bottom_width
  | .left => box.geom.border_left_width

/-- `box.style['border_%s_color' % side]`. -/
def border_side_color (style : Style) : Side → Color
  | .top => style.border_top_color
  | .right => style.border_right_color
  | .bottom => style.border_bottom_color
  | .left => style.border_left_color

/-- `box.style['border_%s_style' % side]`. -/
def border_side_style (style : Style) : Side → BorderStyle
  | .top => style.border_top_style
  | .right => style.border_right_style
  | .bottom => style.border_bottom_style
  | .left => style.border_left_style

/-- `box_rectangle(box, which_rectangle)`: `(x, y, width, height)` for the
requested rectangle kind. -/
def box_rectangle (box : Box) (which_rectangle : BoxArea) : ℚ × ℚ × ℚ × ℚ :=
  match which_rectangle with
  | .borderBox =>
    (box.border_box_x, box.border_box_y, box.border_width, box.border_height)
  | .paddingBox =>
    (box.padding_box_x, box.padding_box_y, box.padding_width, box.padding_height)
  | .contentBox =>
    (box.content_box_x, box.content_box_y, box.width, box.height)

/-- `background_positioning_area(page, box, style)`. -/
def background_positioning_area (page : Box) (box : Box) (style : Style) :
    ℚ × ℚ × ℚ × ℚ :=
  if style.background_attachment = Attachment.fixed ∧ box.objectId ≠ page.objectId then
    -- Initial containing block
    box_rectangle page BoxArea.contentBox
  else
    box_rectangle box box.style.background_origin

end WeasyDraw

namespace WeasyDraw

/-- The `background-size` computation block of `draw_background`: yields
`(image_width, image_height, scale_x, scale_y)` from the style value and the
positioning-area and intrinsic dimensions. -/
def background_size_values (bg_size : BgSize)
    (positioning_width positioning_height intrinsic_width intrinsic_height : ℚ) :
    ℚ × ℚ × ℚ × ℚ :=
  match bg_size with
  | .cover =>
    -- {'cover': max, 'contain': min}[bg_size](pw / iw, ph / ih)
    let scale := max (positioning_width / intrinsic_width)
                     (positioning_height / intrinsic_height)
    (intrinsic_width * scale, intrinsic_height * scale, scale, scale)
  | .contain =>
    let scale := min (positioning_width / intrinsic_width)
                     (positioning_height / intrinsic_height)
    (intrinsic_width * scale, intrinsic_height * scale, scale, scale)
  | .explicitSize .auto .auto =>
    (intrinsic_width, intrinsic_height, 1, 1)
  | .explicitSize .auto (.dimension d) =>
    let image_height := percentage d positioning_height
    let scale := image_height / intrinsic_height
    (intrinsic_width * scale, image_height, scale, scale)
  | .explicitSize (.dimension d) .auto =>
    let image_width := percentage d positioning_width
    let scale := image_width / intrinsic_width
    (image_width, intrinsic_height * scale, scale, scale)
  | .explicitSize (.dimension dw) (.dimension dh) =>
    let image_width := percentage dw positioning_width
    let image_height := percentage dh positioning_height
    (image_width, image_height,
     image_width / intrinsic_width, image_height / intrinsic_height)

/-- `draw_background(context, style, painting_area, positioning_area)`: draw
the background color and image (`painting_area = none` means unrestricted,
whole page box). -/
def draw_background (ctx : Ctx) (style : Style)
    (painting_area : Option (ℚ × ℚ × ℚ × ℚ))
    (positioning_area : ℚ × ℚ × ℚ × ℚ) : List DrawOp :=
  let bg_color := style.background_color
  let image := match style.background_image with
    | none => none            -- bg_image == 'none'
    | some uri => ctx.get_image_from_uri uri
  if bg_color.alpha = 0 ∧ image = none then
    -- No background.
    []
  else
    -- with context.stacked():
    let hint_ops : List DrawOp :=
      -- Prefer crisp edges on background rectangles.
      if ctx.enable_hinting then [DrawOp.setAntialiasNone] else []
    let clip_ops : List DrawOp :=
      match painting_area with
      | some (x, y, w, h) => [DrawOp.rectangle x y w h, DrawOp.clip]
      | none => []            -- unrestricted, whole page box
    let color_ops : List DrawOp :=
      if bg_color.alpha > 0 then
        [DrawOp.setSourceRgba bg_color.red bg_color.green bg_color.blue bg_color.alpha,
         DrawOp.paint]
      else []
    let image_ops : List DrawOp :=
      match image with
      | none => []            -- return (the stacked scope still restores)
      | some (pattern, intrinsic_width, intrinsic_height) =>
        let (positioning_x, positioning_y, positioning_width, positioning_height) :=
          positioning_area
        let (image_width, image_height, scale_x, scale_y) :=
          background_size_values style.background_size
            positioning_width positioning_height intrinsic_width intrinsic_height
        let (bg_position_x, bg_position_y) := style.background_position
        let translate_ops :=
          [DrawOp.translate positioning_x positioning_y,
           DrawOp.translate
             (percentage bg_position_x (positioning_width - image_width))
             (percentage bg_position_y (positioning_height - image_height))]
        let repeat_clip_ops : List DrawOp :=
          if style.background_repeat = BgRepeat.repeatX ∨
             style.background_repeat = BgRepeat.repeatY then
            -- context.clip_extents(): opaque query of the current clip
            -- rectangle (same as painting_area, in post-translate coords).
            let (clip_x1, clip_y1, clip_x2, clip_y2) := ctx.clip_extents
            let clip_width := clip_x2 - clip_x1
            let clip_height := clip_y2 - clip_y1
            if style.background_repeat = BgRepeat.repeatX then
              -- Limit the drawn area vertically; clip_y1 = 0 because of the
              -- last context.translate().
              [DrawOp.rectangle clip_x1 0 clip_width image_height, DrawOp.clip]
            else
              -- repeat-y: limit the drawn area horizontally.
              [DrawOp.rectangle 0 clip_y1 image_width clip_height, DrawOp.clip]
          else []
        let extend_ops : List DrawOp :=
          if style.background_repeat = BgRepeat.noRepeat then
            -- The same image/pattern may have been used in a repeating
            -- background.
            [DrawOp.patternSetExtend pattern CairoExtend.extendNone]
          else
            [DrawOp.patternSetExtend pattern CairoExtend.extendRepeat]
        translate_ops ++ repeat_clip_ops ++ extend_ops ++
          [DrawOp.patternSetFilter pattern
             (image_rendering_to_filter style.image_rendering),
           DrawOp.scale scale_x scale_y,
           DrawOp.setSource pattern,
           DrawOp.paint]
    [DrawOp.save] ++ hint_ops ++ clip_ops ++ color_ops ++ image_ops ++
      [DrawOp.restore]

/-- `draw_box_background(context, page, box)`: draw the box background color
and image (no-op for `visibility: hidden`). -/
def draw_box_background (ctx : Ctx) (page : Box) (box : Box) : List DrawOp :=
  if box.style.visibility = Visibility.hidden then []
  else
    let painting_area :=
      if box.objectId = page.objectId then none
      else some (box_rectangle box box.style.background_clip)
    draw_background ctx box.style painting_area
      (background_positioning_area page box box.style)

/-- `draw_border(context, box)`: draw the four border sides (no-op for
`visibility: hidden` or when every side has width 0). -/
def draw_border (ctx : Ctx) (box : Box) : List DrawOp :=
  if box.style.visibility = Visibility.hidden then []
  else if [Side.top, Side.right, Side.bottom, Side.left].all
      (fun side => border_side_width box side == 0) then
    -- No border, return early.
    []
  else
    ((List.zip [Side.top, Side.right, Side.bottom, Side.left]
        (List.zip
          (get_rectangle_edges box.border_box_x box.border_box_y
            box.border_width box.border_height)
          (get_rectangle_edges box.padding_box_x box.padding_box_y
            box.padding_width box.padding_height))).map
      (fun sbp =>
        let side := sbp.1
        let border_edge := sbp.2.1
        let padding_edge := sbp.2.2
        let width := border_side_width box side
        if width = 0 then []                       -- continue
        else
          let color := border_side_color box.style side
          if color.alpha = 0 then []               -- continue
          else
            draw_border_segment ctx (border_side_style box.style side)
              width color side border_edge padding_edge)).flatten

/-- One step of the `half_max_width` loop: when the grid coordinates are in
range, take the running maximum with the looked-up border width (raising on
an out-of-range list index); otherwise keep the running value. -/
def half_max_width_step (grid_height grid_width skipped_rows : ℕ)
    (border_list : List (List BorderCell)) (vertical : Bool)
    (result : ℚ) (yx : ℤ × ℤ) : Except String ℚ :=
  let y := yx.1
  let x := yx.2
  if (if vertical then
        0 ≤ y ∧ y < (grid_height : ℤ) ∧ 0 ≤ x ∧ x ≤ (grid_width : ℤ)
      else
        0 ≤ y ∧ y ≤ (grid_height : ℤ) ∧ 0 ≤ x ∧ x < (grid_width : ℤ)) then
    match (border_list.get? (skipped_rows + y.toNat)).bind
        (fun row => row.get? x.toNat) with
    | some cell => pure (max result cell.width)
    | none => Except.error "IndexError: border grid"
  else
    pure result

/-- The inner function `half_max_width(border_list, yx_pairs, vertical)` of
`draw_collapsed_borders` (the captured `grid_height`, `grid_width` and
`skipped_rows` are passed explicitly): half the maximum width over the
in-range grid cells named by `yx_pairs`, starting from 0. -/
def half_max_width (grid_height grid_width skipped_rows : ℕ)
    (border_list : List (List BorderCell)) (yx_pairs : List (ℤ × ℤ))
    (vertical : Bool) : Except String ℚ := do
  let result ← yx_pairs.foldlM
    (half_max_width_step grid_height grid_width skipped_rows border_list vertical)
    (0 : ℚ)
  pure (result / 2)

/-- A collapsed-border segment record
`(score, style, width, color, side, edge_1, edge_2)`. -/
structure Segment where
  score : ℚ
  style : BorderStyle
  width : ℚ
  color : Color
  side : Side
  edge_1 : (ℚ × ℚ) × (ℚ × ℚ)
  edge_2 : (ℚ × ℚ) × (ℚ × ℚ)
deriving DecidableEq, Repr

/-- The inner function `add_vertical(x, y)` of `draw_collapsed_borders`:
the segment for the vertical grid line at `(x, y)`, or `none` when it is
skipped (width 0 or fully transparent). `column_positions` is the extended
column boundary list and `row_positions` the extended row boundary list. -/
def add_vertical (grid_height grid_width skipped_rows : ℕ)
    (vertical_borders horizontal_borders : List (List BorderCell))
    (column_positions row_positions : List ℚ) (x y : ℕ) :
    Except String (Option Segment) := do
  let cell ← match (vertical_borders.get? (skipped_rows + y)).bind
      (fun row => row.get? x) with
    | some c => pure c
    | none => Except.error "IndexError: vertical_borders"
  if cell.width = 0 ∨ cell.color.alpha = 0 then
    pure none
  else do
    let half_width := cell.width / 2
    let pos_x ← match column_positions.get? x with
      | some v => pure v
      | none => Except.error "IndexError: column_positions"
    let row_y ← match row_positions.get? y with
      | some v => pure v
      | none => Except.error "IndexError: row_positions"
    let row_y_next ← match row_positions.get? (y + 1) with
      | some v => pure v
      | none => Except.error "IndexError: row_positions"
    let hm_1 ← half_max_width grid_height grid_width skipped_rows
      horizontal_borders [((y : ℤ), (x : ℤ) - 1), ((y : ℤ), (x : ℤ))] false
    let hm_2 ← half_max_width grid_height grid_width skipped_rows
      horizontal_borders [((y : ℤ) + 1, (x : ℤ) - 1), ((y : ℤ) + 1, (x : ℤ))] false
    let pos_y_1 := row_y - hm_1
    let pos_y_2 := row_y_next + hm_2
    pure (some
      { score := cell.score
        style := cell.style
        width := cell.width
        color := cell.color
        side := Side.left
        edge_1 := ((pos_x - half_width, pos_y_1), (pos_x - half_width, pos_y_2))
        edge_2 := ((pos_x + half_width, pos_y_1), (pos_x + half_width, pos_y_2)) })

/-- The inner function `add_horizontal(x, y)` of `draw_collapsed_borders`:
the segment for the horizontal grid line at `(x, y)`, or `none` when it is
skipped. -/
def add_horizontal (grid_height grid_width skipped_rows : ℕ)
    (vertical_borders horizontal_borders : List (List BorderCell))
    (column_positions row_positions : List ℚ) (x y : ℕ) :
    Except String (Option Segment) := do
  let cell ← match (horizontal_borders.get? (skipped_rows + y)).bind
      (fun row => row.get? x) with
    | some c => pure c
    | none => Except.error "IndexError: horizontal_borders"
  if cell.width = 0 ∨ cell.color.alpha = 0 then
    pure none
  else do
    let half_width := cell.width / 2
    let pos_y ← match row_positions.get? y with
      | some v => pure v
      | none => Except.error "IndexError: row_positions"
    let col_x ← match column_positions.get? x with
      | some v => pure v
      | none => Except.error "IndexError: column_positions"
    let col_x_next ← match column_positions.get? (x + 1) with
      | some v => pure v
      | none => Except.error "IndexError: column_positions"
    let hm_1 ← half_max_width grid_height grid_width skipped_rows
      vertical_borders [((y : ℤ) - 1, (x : ℤ)), ((y : ℤ), (x : ℤ))] true
    let hm_2 ← half_max_width grid_height grid_width skipped_rows
      vertical_borders [((y : ℤ) - 1, (x : ℤ) + 1), ((y : ℤ), (x : ℤ) + 1)] true
    let pos_x_1 := col_x - hm_1
    let pos_x_2 := col_x_next + hm_2
    pure (some
      { score := cell.score
        style := cell.style
        width := cell.width
        color := cell.color
        side := Side.top
        edge_1 := ((pos_x_1, pos_y - half_width), (pos_x_2, pos_y - half_width))
        edge_2 := ((pos_x_1, pos_y + half_width), (pos_x_2, pos_y + half_width)) })

/-- The segment-collection loops of `draw_collapsed_borders`, in discovery
order: the top border pass left to right, then one pass per row (its leading
vertical, then per column the following vertical and the border below). -/
def collect_collapsed_segments (grid_height grid_width skipped_rows : ℕ)
    (vertical_borders horizontal_borders : List (List BorderCell))
    (column_positions row_positions : List ℚ) :
    Except String (List Segment) := do
  let top_row ← (List.range grid_width).mapM (fun x =>
    add_horizontal grid_height grid_width skipped_rows
      vertical_borders horizontal_borders column_positions row_positions x 0)
  let rest ← (List.range grid_height).mapM (fun y => do
    let v0 ← add_vertical grid_height grid_width skipped_rows
      vertical_borders horizontal_borders column_positions row_positions 0 y
    let inner ← (List.range grid_width).mapM (fun x => do
      let v ← add_vertical grid_height grid_width skipped_rows
        vertical_borders horizontal_borders column_positions row_positions (x + 1) y
      let h ← add_horizontal grid_height grid_width skipped_rows
        vertical_borders horizontal_borders column_positions row_positions x (y + 1)
      pure [v, h])
    pure ([v0] ++ inner.flatten))
  pure ((top_row ++ rest.flatten).filterMap id)

/-- Stable insert for the ascending-by-score sort: an element is inserted
before the first element with a strictly larger score, so elements with equal
scores keep their discovery order. -/
def insert_by_score (s : Segment) : List Segment → List Segment
  | [] => [s]
  | t :: rest =>
    if t.score < s.score then t :: insert_by_score s rest
    else s :: t :: rest

/-- `segments.sort(key=operator.itemgetter(0))`: Python's sort is stable and
ascending; bigger scores sort last (painted later, on top). -/
def sort_by_score : List Segment → List Segment
  | [] => []
  | s :: rest => insert_by_score s (sort_by_score rest)

/-- The flattened row list `[row for row_group in table.children for row in
row_group.children]` used (twice) by `draw_collapsed_borders`. -/
def table_rows (table : Box) : Except String (List Box) := do
  let row_groups ← table.children.mapM as_box
  let rows ← row_groups.mapM (fun row_group => row_group.children.mapM as_box)
  pure rows.flatten

/-- `draw_collapsed_borders(context, table)`: resolve and paint the collapsed
border grid of a table. Returns the emitted operations together with the
table as it is left after the call: the `column_positions += […]` statement
extends the list *in place* (Python list `+=` aliases), so
`table.column_positions` gains the synthetic end-of-last-column entry, even
though the adjacent comment claims a copy is made. -/
def draw_collapsed_borders (ctx : Ctx) (table : Box) :
    Except String (List DrawOp × Box) := do
  let rows ← table_rows table
  let row_heights := rows.map Box.height
  let column_widths := table.column_widths
  if row_heights = [] ∨ column_widths = [] then
    -- One of the lists is empty: don't bother with empty tables.
    pure ([], table)
  else do
    let row_positions := rows.map Box.position_y
    let column_positions := table.column_positions
    let grid_height := row_heights.length
    let grid_width := column_widths.length
    -- assert grid_width == len(column_positions)
    if grid_width ≠ column_positions.length then
      Except.error "AssertionError: grid_width != len(column_positions)"
    else do
      let cp_last ← match column_positions.getLast? with
        | some v => pure v
        | none => Except.error "IndexError: column_positions"
      let cw_last ← match column_widths.getLast? with
        | some v => pure v
        | none => Except.error "IndexError: column_widths"
      -- column_positions += [column_positions[-1] + column_widths[-1]]
      -- (extends the table's own list object in place)
      let column_positions := column_positions ++ [cp_last + cw_last]
      let table_after := table.set_column_positions column_positions
      let rp_last ← match row_positions.getLast? with
        | some v => pure v
        | none => Except.error "IndexError: row_positions"
      let rh_last ← match row_heights.getLast? with
        | some v => pure v
        | none => Except.error "IndexError: row_heights"
      -- row_positions.append(...): no copy needed, we own this list.
      let row_positions := row_positions ++ [rp_last + rh_last]
      let (vertical_borders, horizontal_borders) := table.collapsed_border_grid
      let skipped_rows := table.skipped_rows
      let segments ← collect_collapsed_segments grid_height grid_width
        skipped_rows vertical_borders horizontal_borders
        column_positions row_positions
      let sorted_segments := sort_by_score segments
      pure ((sorted_segments.map (fun s =>
        draw_border_segment ctx s.style s.width s.color s.side s.edge_1 s.edge_2)).flatten,
        table_after)

/-- `draw_replacedbox(context, box)`: paint a replaced box's intrinsic
resource into its content area (no-op for `visibility: hidden`, empty output
for a zero scale), then rebind `box.replacement` to the marker string so a
second paint attempt raises on unpacking. -/
def draw_replacedbox (ctx : Ctx) (box : Box) :
    Except String (List DrawOp × Box) :=
  if box.style.visibility = Visibility.hidden then .ok ([], box)
  else
    match box.replacement with
    | some (Replacement.image pattern intrinsic_width intrinsic_height) =>
      let x := box.content_box_x
      let y := box.content_box_y
      let width := box.width
      let height := box.height
      -- Real images have positive intrinsic dimensions (Python `/` would
      -- raise ZeroDivisionError on 0).
      let scale_width := width / intrinsic_width
      let scale_height := height / intrinsic_height
      -- Draw nothing for width:0 or height:0.
      let ops : List DrawOp :=
        if scale_width ≠ 0 ∧ scale_height ≠ 0 then
          [DrawOp.save,
           DrawOp.translate x y,
           DrawOp.rectangle 0 0 width height,
           DrawOp.clip,
           DrawOp.scale scale_width scale_height,
           -- The same image/pattern may have been used in a repeating
           -- background.
           DrawOp.patternSetExtend pattern CairoExtend.extendNone,
           DrawOp.patternSetFilter pattern
             (image_rendering_to_filter box.style.image_rendering),
           DrawOp.setSource pattern,
           DrawOp.paint,
           DrawOp.restore]
        else []
      -- box.replacement = 'Removed to work around cairo behavior':
      -- replaced boxes are atomic and should only ever be drawn once.
      .ok (ops, box.set_replacement (some Replacement.removedMarker))
    | some Replacement.removedMarker =>
      -- Unpacking the marker string as a 3-tuple raises.
      .error "ValueError: box.replacement was already consumed"
    | none =>
      .error "AttributeError: box has no replacement"

/-- `draw_text_decoration(context, textbox, offset_y)`: draw one decoration
line. -/
def draw_text_decoration (ctx : Ctx) (textbox : Box) (offset_y : ℚ) :
    List DrawOp :=
  [DrawOp.save] ++
    (if ctx.enable_hinting then [DrawOp.setAntialiasNone] else []) ++
    [DrawOp.setSourceRgba textbox.style.color.red textbox.style.color.green
       textbox.style.color.blue textbox.style.color.alpha,
     DrawOp.setLineWidth 1,
     DrawOp.moveTo textbox.position_x (textbox.position_y + offset_y),
     DrawOp.relLineTo textbox.width 0,
     DrawOp.stroke,
     DrawOp.restore]

/-- `draw_text(context, textbox)`: show the shaped first line, then at most
one decoration line, checked in the order overline, underline, line-through.
The `assert textbox.style.font_size` guard raises on a zero font size (Pango
crashes with font-size: 0) and precedes the visibility check. -/
def draw_text (ctx : Ctx) (textbox : Box) : Except String (List DrawOp) :=
  if textbox.style.font_size = 0 then
    .error "AssertionError: font_size is 0"
  else if textbox.style.visibility = Visibility.hidden then
    .ok []
  else
    let decoration_ops :=
      if textbox.style.text_decoration.overline then
        draw_text_decoration ctx textbox
          (textbox.baseline - 0.15 * textbox.style.font_size)
      else if textbox.style.text_decoration.underline then
        draw_text_decoration ctx textbox
          (textbox.baseline + 0.15 * textbox.style.font_size)
      else if textbox.style.text_decoration.line_through then
        draw_text_decoration ctx textbox (textbox.height * 0.5)
      else []
    .ok ([DrawOp.moveTo textbox.position_x (textbox.position_y + textbox.baseline),
          DrawOp.setSourceRgba textbox.style.color.red textbox.style.color.green
            textbox.style.color.blue textbox.style.color.alpha,
          DrawOp.showFirstLine textbox.pango_layout ctx.enable_hinting] ++
         decoration_ops)

/-- `apply_2d_transforms(context, box)`: apply the transform list around the
resolved origin; transforms apply to block-level and atomic inline-level
elements but not to (possibly fragmented) `InlineBox` elements. Returns the
emitted operations and the context with its CTM updated for the subtree. -/
def apply_2d_transforms (ctx : Ctx) (box : Box) : List DrawOp × Ctx :=
  if box.style.transform ≠ [] ∧ box.tag ≠ BoxTag.inline then
    let border_width := box.border_width
    let border_height := box.border_height
    let origin_x := percentage box.style.transform_origin.1 border_width +
      box.border_box_x
    let origin_y := percentage box.style.transform_origin.2 border_height +
      box.border_box_y
    let acc := box.style.transform.foldl
      (fun (acc : List DrawOp × Ctx) (t : Transform2d) =>
        let ops := acc.1
        let c := acc.2
        match t with
        | .scale sx sy => (ops ++ [DrawOp.scale sx sy], c.scaleBy sx sy)
        | .rotate angle => (ops ++ [DrawOp.rotate angle], c.rotateBy angle)
        | .translate tx ty =>
          let ax := percentage tx border_width
          let ay := percentage ty border_height
          (ops ++ [DrawOp.translate ax ay], c.translateBy ax ay)
        | .skewx angle =>
          (ops ++ [DrawOp.transformMatrix 1 0 (c.tan_oracle angle) 1 0 0],
           c.transformBy ⟨1, 0, c.tan_oracle angle, 1, 0, 0⟩)
        | .skewy angle =>
          (ops ++ [DrawOp.transformMatrix 1 (c.tan_oracle angle) 0 1 0 0],
           c.transformBy ⟨1, c.tan_oracle angle, 0, 1, 0, 0⟩)
        | .matrix a b cc d e f =>
          (ops ++ [DrawOp.transformMatrix a b cc d e f],
           c.transformBy ⟨a, b, cc, d, e, f⟩))
      ([DrawOp.translate origin_x origin_y], ctx.translateBy origin_x origin_y)
    (acc.1 ++ [DrawOp.translate (-origin_x) (-origin_y)],
     acc.2.translateBy (-origin_x) (-origin_y))
  else
    ([], ctx)

end WeasyDraw

namespace WeasyDraw

/-- `draw_box_background_and_border(context, page, box)`: background plus
border for a plain box; for tables, the column-group / column / row-group /
row / cell background passes followed by either separate borders (table and
each cell) or the collapsed-border resolver. Returns the box as left by the
call (only the collapsed-border path mutates it). -/
def draw_box_background_and_border (ctx : Ctx) (page : Box) (box : Box) :
    Except String (List DrawOp × Box) := do
  let bg := draw_box_background ctx page box
  if box.tag ≠ BoxTag.table then
    pure (bg ++ draw_border ctx box, box)
  else do
    let column_ops ← box.column_groups.mapM (fun column_group => do
      let columns ← column_group.children.mapM as_box
      pure (draw_box_background ctx page column_group ++
        (columns.map (fun column => draw_box_background ctx page column)).flatten))
    let row_groups ← box.children.mapM as_box
    let row_ops ← row_groups.mapM (fun row_group => do
      let rows ← row_group.children.mapM as_box
      let per_row ← rows.mapM (fun row => do
        let cells ← row.children.mapM as_box
        pure (draw_box_background ctx page row ++
          (cells.map (fun cell => draw_box_background ctx page cell)).flatten))
      pure (draw_box_background ctx page row_group ++ per_row.flatten))
    if box.style.border_collapse = BorderCollapse.separate then do
      let cell_border_ops ← row_groups.mapM (fun row_group => do
        let rows ← row_group.children.mapM as_box
        let per_row ← rows.mapM (fun row => do
          let cells ← row.children.mapM as_box
          pure ((cells.map (fun cell => draw_border ctx cell)).flatten))
        pure per_row.flatten)
      pure (bg ++ column_ops.flatten ++ row_ops.flatten ++
        draw_border ctx box ++ cell_border_ops.flatten, box)
    else do
      let (collapsed_ops, table_after) ← draw_collapsed_borders ctx box
      pure (bg ++ column_ops.flatten ++ row_ops.flatten ++ collapsed_ops,
        table_after)

/-- Point 2 of `draw_stacking_context`: the context root's own background and
border, painted only when the root is a `BlockBox`, `MarginBox` or
`InlineBlockBox`. -/
def draw_point_2 (ctx : Ctx) (page : Box) (box : Box) :
    Except String (List DrawOp) :=
  if box.tag = BoxTag.block ∨ box.tag = BoxTag.margin ∨
     box.tag = BoxTag.inlineBlock then do
    let (ops, _) ← draw_box_background_and_border ctx page box
    pure ops
  else
    pure []

/-- Point 4 of `draw_stacking_context`: background and border of each in-flow
block-level descendant, in document order. -/
def draw_block_level_boxes (ctx : Ctx) (page : Box) (boxes : List Box) :
    Except String (List DrawOp) := do
  let ops ← boxes.mapM (fun box => do
    let (box_ops, _) ← draw_box_background_and_border ctx page box
    pure box_ops)
  pure ops.flatten

/-- The `clip` property block at the top of `draw_stacking_context`:
`auto` resolves to 0 for top/right and to the border dimensions for
bottom/left, then a rectangle clip is established. -/
def stacking_clip_ops (box : Box) : List DrawOp :=
  match box.style.clip with
  | some (top, right, bottom, left) =>
    let top := match top with | .auto => 0 | .length v => v
    let right := match right with | .auto => 0 | .length v => v
    let bottom := match bottom with | .auto => box.border_height | .length v => v
    let left := match left with | .auto => box.border_width | .length v => v
    [DrawOp.rectangle (box.border_box_x + right) (box.border_box_y + top)
       (left - right) (bottom - top),
     DrawOp.clip]
  | none => []

/-- The `overflow` clip of `draw_stacking_context`: clip to the padding box
when overflow is not `visible`. -/
def overflow_clip_ops (box : Box) : List DrawOp :=
  if box.style.overflow ≠ Overflow.visible then
    let r := box_rectangle box BoxArea.paddingBox
    [DrawOp.rectangle r.1 r.2.1 r.2.2.1 r.2.2.2, DrawOp.clip]
  else []

mutual

/-- `draw_stacking_context(context, stacking_context)`: the painting-order
orchestrator (CSS2.1 Appendix E), inside a `with context.stacked()` scope:
clip for the `clip` property, clip for non-visible `overflow`, push a
compositing group when `opacity < 1`, apply 2D transforms, then points 2–9,
and finally pop the group and composite it with the box's opacity. -/
def draw_stacking_context (ctx : Ctx) (sc : StackingContext) :
    Except String (List DrawOp) :=
  match sc with
  | .mk page box block_level_boxes blocks_and_cells negative_z_contexts
      float_contexts zero_z_contexts positive_z_contexts => do
    let clip1 := stacking_clip_ops box
    let clip2 := overflow_clip_ops box
    let push_ops : List DrawOp :=
      if box.style.opacity < 1 then [DrawOp.pushGroup] else []
    let transformed := apply_2d_transforms ctx box
    let transform_ops := transformed.1
    let ctx2 := transformed.2
    -- Point 1 is done in draw_page.
    -- Point 2
    let own ← draw_point_2 ctx2 page box
    -- Point 3
    let negz ← draw_stacking_contexts ctx2 negative_z_contexts
    -- Point 4
    let blocks ← draw_block_level_boxes ctx2 page block_level_boxes
    -- Point 5
    let floats ← draw_stacking_contexts ctx2 float_contexts
    -- Point 6
    let inline_ops ←
      if box.tag = BoxTag.inline then draw_inline_level_box ctx2 page box
      else pure []
    -- Point 7, for [stacking_context.box] + stacking_context.blocks_and_cells
    let p7_root ← draw_point_7 ctx2 page box
    let p7_rest ← draw_point_7_list ctx2 page blocks_and_cells
    -- Point 8
    let zeroz ← draw_stacking_contexts ctx2 zero_z_contexts
    -- Point 9
    let posz ← draw_stacking_contexts ctx2 positive_z_contexts
    let pop_ops : List DrawOp :=
      if box.style.opacity < 1 then
        [DrawOp.popGroupToSource, DrawOp.paintWithAlpha box.style.opacity]
      else []
    pure ([DrawOp.save] ++ clip1 ++ clip2 ++ push_ops ++ transform_ops ++
      own ++ negz ++ blocks ++ floats ++ inline_ops ++ p7_root ++ p7_rest ++
      zeroz ++ posz ++ pop_ops ++ [DrawOp.restore])
termination_by structural sc

/-- Recursion over a list of child stacking contexts, in order. -/
def draw_stacking_contexts (ctx : Ctx) (l : List StackingContext) :
    Except String (List DrawOp) :=
  match l with
  | [] => pure []
  | c :: rest => do
    let first ← draw_stacking_context ctx c
    let more ← draw_stacking_contexts ctx rest
    pure (first ++ more)
termination_by structural l

/-- Point 7 body for one box: any outside list marker first, then either the
box painted as replaced content or its `LineBox` children painted as inline
content. -/
def draw_point_7 (ctx : Ctx) (page : Box) (b : Box) :
    Except String (List DrawOp) :=
  match b with
  | .mk tag _ _ _ children marker _ _ _ _ _ _ _ => do
    let marker_ops ← match marker with
      | some marker_box => draw_inline_level ctx page marker_box
      | none => pure []
    let content_ops ←
      if tag = BoxTag.blockReplaced ∨ tag = BoxTag.inlineReplaced then do
        -- isinstance(box, boxes.ReplacedBox)
        let (ops, _) ← draw_replacedbox ctx b
        pure ops
      else
        draw_line_children ctx page children
    pure (marker_ops ++ content_ops)
termination_by structural b

/-- Point 7 over the `blocks_and_cells` list. -/
def draw_point_7_list (ctx : Ctx) (page : Box) (l : List Box) :
    Except String (List DrawOp) :=
  match l with
  | [] => pure []
  | b :: rest => do
    let first ← draw_point_7 ctx page b
    let more ← draw_point_7_list ctx page rest
    pure (first ++ more)
termination_by structural l

/-- The children loop of point 7: only `LineBox` children are drawn (inline
tables are not drawn yet). -/
def draw_line_children (ctx : Ctx) (page : Box) (l : List BoxOrContext) :
    Except String (List DrawOp) :=
  match l with
  | [] => pure []
  | child :: rest => do
    let first ← match child with
      | .ofBox cb =>
        if cb.tag = BoxTag.line then draw_inline_level_box ctx page cb
        else pure []
      | .ofContext _ => pure []     -- not a LineBox
    let more ← draw_line_children ctx page rest
    pure (first ++ more)
termination_by structural l

/-- `draw_inline_level(context, page, box)` for a child slot: a
`StackingContext` child must wrap an `InlineBlockBox` (asserted) and recurses
into the orchestrator; a plain box is drawn as inline-level content. -/
def draw_inline_level (ctx : Ctx) (page : Box) (child : BoxOrContext) :
    Except String (List DrawOp) :=
  match child with
  | .ofContext sc =>
    -- assert isinstance(stacking_context.box, boxes.InlineBlockBox)
    if sc.box.tag = BoxTag.inlineBlock then draw_stacking_context ctx sc
    else .error "AssertionError: expected InlineBlockBox"
  | .ofBox b => draw_inline_level_box ctx page b
termination_by structural child

/-- `draw_inline_level` on a plain box: background and border, then text-run
children to `draw_text`, atomic inline-replaced boxes to `draw_replacedbox`,
inline/line children recursing; any other kind must be a `TextBox` (list
markers), asserted. -/
def draw_inline_level_box (ctx : Ctx) (page : Box) (b : Box) :
    Except String (List DrawOp) :=
  match b with
  | .mk tag _ _ _ children _ _ _ _ _ _ _ _ => do
    let bg := draw_box_background ctx page b
    let bd := draw_border ctx b
    let content ←
      if tag = BoxTag.inline ∨ tag = BoxTag.line then
        draw_inline_children ctx page children
      else if tag = BoxTag.inlineReplaced then do
        let (ops, _) ← draw_replacedbox ctx b
        pure ops
      else if tag = BoxTag.text then
        -- Should only happen for list markers.
        draw_text ctx b
      else
        .error "AssertionError: expected TextBox"
    pure (bg ++ bd ++ content)
termination_by structural b

/-- The children loop of `draw_inline_level` for inline and line boxes:
`TextBox` children go to `draw_text`, everything else back to
`draw_inline_level`. -/
def draw_inline_children (ctx : Ctx) (page : Box) (l : List BoxOrContext) :
    Except String (List DrawOp) :=
  match l with
  | [] => pure []
  | child :: rest => do
    let first ← match child with
      | .ofBox cb =>
        if cb.tag = BoxTag.text then draw_text ctx cb
        else draw_inline_level ctx page child
      | .ofContext _ => draw_inline_level ctx page child
    let more ← draw_inline_children ctx page rest
    pure (first ++ more)
termination_by structural l

end

end WeasyDraw

namespace WeasyDraw

/-! Concrete fixtures used by the example theorems and witnesses. -/

/-- A neutral style: visible, fully opaque, no clip, no transform, no
background, separate borders, black solid zero-width borders. -/
def plain_style : Style :=
  { visibility := .visible
    opacity := 1
    clip := none
    overflow := .visible
    transform := []
    transform_origin := (.px 0, .px 0)
    background_color := ⟨0, 0, 0, 0⟩
    background_image := none
    background_size := .explicitSize .auto .auto
    background_position := (.px 0, .px 0)
    background_repeat := .repeatBoth
    background_attachment := .scroll
    background_origin := .paddingBox
    background_clip := .borderBox
    border_collapse := .separate
    border_top_color := ⟨0, 0, 0, 1⟩
    border_right_color := ⟨0, 0, 0, 1⟩
    border_bottom_color := ⟨0, 0, 0, 1⟩
    border_left_color := ⟨0, 0, 0, 1⟩
    border_top_style := .solid
    border_right_style := .solid
    border_bottom_style := .solid
    border_left_style := .solid
    image_rendering := .auto
    color := ⟨0, 0, 0, 1⟩
    font_size := 16
    text_decoration := ⟨false, false, false⟩ }

/-- An all-zero geometry record. -/
def plain_geom : Geom :=
  { position_x := 0, position_y := 0
    border_box_x := 0, border_box_y := 0, border_width := 0, border_height := 0
    padding_box_x := 0, padding_box_y := 0, padding_width := 0, padding_height := 0
    content_box_x := 0, content_box_y := 0, width := 0, height := 0
    border_top_width := 0, border_right_width := 0
    border_bottom_width := 0, border_left_width := 0
    baseline := 0 }

/-- A test context: hinting off, no resolvable images, identity CTM. -/
def test_ctx : Ctx :=
  { enable_hinting := false
    get_image_from_uri := fun _ => none
    mat := RMat.id
    clip_extents := (0, 0, 0, 0)
    tan_oracle := fun _ => 0
    cos_oracle := fun _ => 1
    sin_oracle := fun _ => 0 }

/-- A page box (identity 0). -/
def test_page : Box :=
  .mk .page 0 plain_style
    { plain_geom with
      border_width := 600, border_height := 800
      padding_width := 600, padding_height := 800, width := 600, height := 800 }
    [] none none 0 [] [] ([], []) 0 []

/-- A borderless block box with the given identity, geometry offset and
background color (10×10 border box at `(x, y)`). -/
def simple_block (oid : ℕ) (x y : ℚ) (bg : Color) : Box :=
  .mk .block oid { plain_style with background_color := bg }
    { plain_geom with
      border_box_x := x, border_box_y := y, border_width := 10
      border_height := 10, padding_box_x := x, padding_box_y := y
      padding_width := 10, padding_height := 10, content_box_x := x
      content_box_y := y, width := 10, height := 10 }
    [] none none 0 [] [] ([], []) 0 []

end WeasyDraw

namespace WeasyDraw

/-! Helper predicates and fixtures shared by several theorems. -/

/-- Recognizes `set_dash` operations. -/
def is_set_dash : DrawOp → Bool
  | .setDash _ => true
  | _ => false

/-- Recognizes `push_group` operations. -/
def is_push_group : DrawOp → Bool
  | .pushGroup => true
  | _ => false

/-- Recognizes `pop_group_to_source` operations. -/
def is_pop_group : DrawOp → Bool
  | .popGroupToSource => true
  | _ => false

/-- Opaque black. -/
def black : Color := ⟨0, 0, 0, 1⟩

/-- Opaque red. -/
def red : Color := ⟨1, 0, 0, 1⟩

/-- A border-conflict grid cell with width 0 (skipped by the resolver). -/
def zero_cell : BorderCell := ⟨0, .solid, 0, ⟨0, 0, 0, 0⟩⟩

/-- A context whose image resolver yields a 200×100 intrinsic image
(pattern id 7) for every URI. -/
def image_ctx : Ctx := { test_ctx with get_image_from_uri := fun _ => some (7, 200, 100) }

/-- A style with a background image sized with `cover`. -/
def cover_style : Style :=
  { plain_style with background_image := some "pattern.png", background_size := .cover }

/-- C8: for `background-size: cover` (resp. `contain`) both axes are scaled by
the single factor max (resp. min) of `positioning_width / intrinsic_width` and
`positioning_height / intrinsic_height`, and the image dimensions are the
intrinsic dimensions times that factor; an intrinsic 200×100 image in a
300×300 positioning area yields scale 3 and image 600×300 under cover, scale
3/2 and image 300×150 under contain, and `draw_background` then scales the
coordinate system by exactly that factor. -/
theorem background_cover_contain_scaling :
    (∀ pw ph iw ih : ℚ,
      background_size_values BgSize.cover pw ph iw ih =
        (iw * max (pw / iw) (ph / ih), ih * max (pw / iw) (ph / ih),
         max (pw / iw) (ph / ih), max (pw / iw) (ph / ih))) ∧
    (∀ pw ph iw ih : ℚ,
      background_size_values BgSize.contain pw ph iw ih =
        (iw * min (pw / iw) (ph / ih), ih * min (pw / iw) (ph / ih),
         min (pw / iw) (ph / ih), min (pw / iw) (ph / ih))) ∧
    background_size_values BgSize.cover 300 300 200 100 = (600, 300, 3, 3) ∧
    background_size_values BgSize.contain 300 300 200 100 = (300, 150, 3/2, 3/2) ∧
    DrawOp.scale 3 3 ∈ draw_background image_ctx cover_style none (0, 0, 300, 300) := by
  refine ⟨fun pw ph iw ih => rfl, fun pw ph iw ih => rfl, ?_, ?_, ?_⟩
  · simp only [background_size_values]
    norm_num
  · simp only [background_size_values]
    norm_num
  · simp +decide [draw_background, background_size_values, percentage,
      image_ctx, cover_style, plain_style, test_ctx]
    norm_num

end WeasyDraw

namespace WeasyDraw

/-- C5: for a dashed border segment of width `w` whose stroke line has exact
length `L`, the single dash value passed to `set_dash` is
`L / (2 · round(L / (2 · (2 · w))))` (so twice the dash divides the length);
for a dotted segment the dash pattern is `[0, dash]` where the base dash
`2 · w` is snapped to `L / round(L / (2 · w))` exactly when the device-space
width of the dash stroke exceeds 3 units, and is left at `2 · w` otherwise;
at length 100 and width 5 both styles use dash 10. -/
theorem dash_rounding :
    (∀ (ctx : Ctx) (width : ℚ) (color : Color) (side : Side)
        (x1 y1 x2 y2 px1 py1 px2 py2 L : ℚ),
      L = hypot_exact (x2 - x1) (y2 - y1) →
      DrawOp.setDash [L / (2 * python_round (L / (2 * (2 * width))))] ∈
        draw_border_segment ctx BorderStyle.dashed width color side
          ((x1, y1), (x2, y2)) ((px1, py1), (px2, py2)) ∧
      (draw_border_segment ctx BorderStyle.dashed width color side
          ((x1, y1), (x2, y2)) ((px1, py1), (px2, py2))).countP is_set_dash = 1) ∧
    (∀ (ctx : Ctx) (width : ℚ) (color : Color) (side : Side)
        (x1 y1 x2 y2 px1 py1 px2 py2 L : ℚ),
      L = hypot_exact ((x2 + px2) / 2 - (x1 + px1) / 2)
            ((y2 + py2) / 2 - (y1 + py1) / 2) →
      ((ctx.user_to_device_distance width 0).1 > 3 →
        DrawOp.setDash [0, L / python_round (L / (2 * width))] ∈
          draw_border_segment ctx BorderStyle.dotted width color side
            ((x1, y1), (x2, y2)) ((px1, py1), (px2, py2))) ∧
      (¬ (ctx.user_to_device_distance width 0).1 > 3 →
        DrawOp.setDash [0, 2 * width] ∈
          draw_border_segment ctx BorderStyle.dotted width color side
            ((x1, y1), (x2, y2)) ((px1, py1), (px2, py2))) ∧
      (draw_border_segment ctx BorderStyle.dotted width color side
          ((x1, y1), (x2, y2)) ((px1, py1), (px2, py2))).countP is_set_dash = 1) ∧
    DrawOp.setDash [10] ∈ draw_border_segment test_ctx BorderStyle.dashed 5 black
      Side.top ((0, 0), (100, 0)) ((5, 5), (95, 5)) ∧
    DrawOp.setDash [0, 10] ∈ draw_border_segment test_ctx BorderStyle.dotted 5 black
      Side.top ((0, 0), (100, 0)) ((0, 10), (100, 10)) := by
  refine ⟨?_, ?_, ?_, ?_⟩
  · intro ctx width color side x1 y1 x2 y2 px1 py1 px2 py2 L hL
    subst hL
    constructor
    · cases side <;> simp [draw_border_segment, xy_offset, hypot_exact]
    · cases side <;>
        by_cases hh : ctx.enable_hinting ∧
            1 ≤ (ctx.user_to_device width 0).1 ^ 2 + (ctx.user_to_device width 0).2 ^ 2 ∧
            1 ≤ (ctx.user_to_device 0 width).1 ^ 2 + (ctx.user_to_device 0 width).2 ^ 2 <;>
        simp [draw_border_segment, hh, is_set_dash, List.countP_cons]
  · intro ctx width color side x1 y1 x2 y2 px1 py1 px2 py2 L hL
    subst hL
    refine ⟨?_, ?_, ?_⟩
    · intro hcond
      simp [draw_border_segment, hcond]
    · intro hcond
      simp [draw_border_segment, hcond]
    · cases side <;>
        by_cases hh : ctx.enable_hinting ∧
            1 ≤ (ctx.user_to_device width 0).1 ^ 2 + (ctx.user_to_device width 0).2 ^ 2 ∧
            1 ≤ (ctx.user_to_device 0 width).1 ^ 2 + (ctx.user_to_device 0 width).2 ^ 2 <;>
        by_cases hc : (ctx.user_to_device_distance width 0).1 > 3 <;>
        simp [draw_border_segment, hh, hc, is_set_dash, List.countP_cons]
  · simp +decide [draw_border_segment, xy_offset, hypot_exact, python_round,
      test_ctx, black, RMat.id, Ctx.user_to_device_distance]
    norm_num [python_round]
  · simp +decide [draw_border_segment, xy_offset, hypot_exact, python_round,
      test_ctx, black, RMat.id, Ctx.user_to_device_distance]
    norm_num [python_round]

end WeasyDraw

namespace WeasyDraw

/-- Witness for `dash_rounding` at length 100 and width 5 (device-space dash
width 5 > 3 for the dotted case). -/
theorem dash_rounding_witness :
    (DrawOp.setDash [(100 : ℚ) / (2 * python_round (100 / (2 * (2 * 5))))] ∈
        draw_border_segment test_ctx BorderStyle.dashed 5 black Side.top
          ((0, 0), (100, 0)) ((5, 5), (95, 5)) ∧
      (draw_border_segment test_ctx BorderStyle.dashed 5 black Side.top
          ((0, 0), (100, 0)) ((5, 5), (95, 5))).countP is_set_dash = 1) ∧
    DrawOp.setDash [0, (100 : ℚ) / python_round (100 / (2 * 5))] ∈
      draw_border_segment test_ctx BorderStyle.dotted 5 black Side.top
        ((0, 0), (100, 0)) ((0, 10), (100, 10)) :=
  ⟨dash_rounding.1 test_ctx 5 black Side.top 0 0 100 0 5 5 95 5 100
      (by norm_num [hypot_exact]),
   (dash_rounding.2.1 test_ctx 5 black Side.top 0 0 100 0 0 10 100 10 100
      (by norm_num [hypot_exact])).1
     (by norm_num [test_ctx, Ctx.user_to_device_distance, RMat.id])⟩

end WeasyDraw

namespace WeasyDraw

/-- C7: an inset or outset border segment is painted, inside the trapezoid
clip, with the source color shifted by `d` on the R, G and B channels with
alpha preserved, where `d = +0.5` exactly when the side is in top/left and
the style is outset or the side is in bottom/right and the style is inset
(the XOR of side-membership and style), and `d = -0.5` otherwise. -/
theorem inset_outset_lighten (ctx : Ctx) (width : ℚ) (color : Color)
    (side : Side) (border_edge padding_edge : (ℚ × ℚ) × (ℚ × ℚ))
    (style : BorderStyle)
    (h : style = BorderStyle.inset ∨ style = BorderStyle.outset) :
    [DrawOp.setSourceRgba
       (color.red +
         (if (side = Side.top ∨ side = Side.left) ↔ style = BorderStyle.outset
          then (0.5 : ℚ) else -0.5))
       (color.green +
         (if (side = Side.top ∨ side = Side.left) ↔ style = BorderStyle.outset
          then (0.5 : ℚ) else -0.5))
       (color.blue +
         (if (side = Side.top ∨ side = Side.left) ↔ style = BorderStyle.outset
          then (0.5 : ℚ) else -0.5))
       color.alpha,
     DrawOp.paint, DrawOp.restore] <:+
      draw_border_segment ctx style width color side border_edge padding_edge := by
  rcases h with h | h <;> subst h <;> cases side <;>
    refine ⟨[DrawOp.save,
        DrawOp.setSourceRgba color.red color.green color.blue color.alpha] ++
      (if ctx.enable_hinting ∧
          1 ≤ (ctx.user_to_device width 0).1 ^ 2 + (ctx.user_to_device width 0).2 ^ 2 ∧
          1 ≤ (ctx.user_to_device 0 width).1 ^ 2 + (ctx.user_to_device 0 width).2 ^ 2 then
        [DrawOp.setAntialiasNone] else []) ++
      [DrawOp.moveTo border_edge.1.1 border_edge.1.2,
       DrawOp.lineTo border_edge.2.1 border_edge.2.2,
       DrawOp.lineTo padding_edge.2.1 padding_edge.2.2,
       DrawOp.lineTo padding_edge.1.1 padding_edge.1.2,
       DrawOp.lineTo border_edge.1.1 border_edge.1.2,
       DrawOp.clip], ?_⟩ <;>
    · simp +decide [draw_border_segment, lighten]
      try norm_num

/-- Witness for `inset_outset_lighten`: an outset top border lightens the red
source color by one half on each channel, with alpha preserved. -/
theorem inset_outset_lighten_witness :
    [DrawOp.setSourceRgba
       (red.red +
         (if (Side.top = Side.top ∨ Side.top = Side.left) ↔
             BorderStyle.outset = BorderStyle.outset
          then (0.5 : ℚ) else -0.5))
       (red.green +
         (if (Side.top = Side.top ∨ Side.top = Side.left) ↔
             BorderStyle.outset = BorderStyle.outset
          then (0.5 : ℚ) else -0.5))
       (red.blue +
         (if (Side.top = Side.top ∨ Side.top = Side.left) ↔
             BorderStyle.outset = BorderStyle.outset
          then (0.5 : ℚ) else -0.5))
       red.alpha,
     DrawOp.paint, DrawOp.restore] <:+
      draw_border_segment test_ctx BorderStyle.outset 4 red Side.top
        ((0, 0), (100, 0)) ((4, 4), (96, 4)) :=
  inset_outset_lighten test_ctx 4 red Side.top ((0, 0), (100, 0)) ((4, 4), (96, 4))
    BorderStyle.outset (Or.inr rfl)

end WeasyDraw

namespace WeasyDraw

/-- Rebinding `box.replacement` leaves the box's style unchanged. -/
theorem Box.set_replacement_style (b : Box) (r : Option Replacement) :
    (b.set_replacement r).style = b.style := by
  cases b
  rfl

/-- Rebinding `box.replacement` stores the new value. -/
theorem Box.set_replacement_replacement (b : Box) (r : Option Replacement) :
    (b.set_replacement r).replacement = r := by
  cases b
  rfl

/-- C6: painting a visible replaced box rebinds its `replacement` to the
removed-marker value, and painting that same box again fails with an error
(the marker cannot be unpacked as a 3-tuple) instead of silently
re-rendering. -/
theorem replaced_resource_consumed_once (ctx : Ctx) (box : Box) (p : ℕ)
    (iw ih : ℚ)
    (hvis : box.style.visibility ≠ Visibility.hidden)
    (hrepl : box.replacement = some (Replacement.image p iw ih)) :
    (∃ ops, draw_replacedbox ctx box =
      .ok (ops, box.set_replacement (some Replacement.removedMarker))) ∧
    (box.set_replacement (some Replacement.removedMarker)).replacement =
      some Replacement.removedMarker ∧
    draw_replacedbox ctx (box.set_replacement (some Replacement.removedMarker)) =
      .error "ValueError: box.replacement was already consumed" := by
  refine ⟨?_, Box.set_replacement_replacement box _, ?_⟩
  · have h : draw_replacedbox ctx box =
        .ok ((if box.width / iw ≠ 0 ∧ box.height / ih ≠ 0 then
            [DrawOp.save, DrawOp.translate box.content_box_x box.content_box_y,
             DrawOp.rectangle 0 0 box.width box.height, DrawOp.clip,
             DrawOp.scale (box.width / iw) (box.height / ih),
             DrawOp.patternSetExtend p CairoExtend.extendNone,
             DrawOp.patternSetFilter p
               (image_rendering_to_filter box.style.image_rendering),
             DrawOp.setSource p, DrawOp.paint, DrawOp.restore]
          else []),
          box.set_replacement (some Replacement.removedMarker)) := by
      simp [draw_replacedbox, hvis, hrepl]
    exact ⟨_, h⟩
  · simp [draw_replacedbox, Box.set_replacement_style,
      Box.set_replacement_replacement, hvis]

/-- A visible 50×40 replaced box holding a live 25×20 image resource. -/
def test_replaced : Box :=
  .mk .blockReplaced 9 plain_style
    { plain_geom with width := 50, height := 40 }
    [] none (some (.image 7 25 20)) 0 [] [] ([], []) 0 []

/-- Witness for `replaced_resource_consumed_once` on a concrete visible
replaced box. -/
theorem replaced_resource_consumed_once_witness :
    (∃ ops, draw_replacedbox test_ctx test_replaced =
      .ok (ops, test_replaced.set_replacement (some Replacement.removedMarker))) ∧
    (test_replaced.set_replacement (some Replacement.removedMarker)).replacement =
      some Replacement.removedMarker ∧
    draw_replacedbox test_ctx
        (test_replaced.set_replacement (some Replacement.removedMarker)) =
      .error "ValueError: box.replacement was already consumed" :=
  replaced_resource_consumed_once test_ctx test_replaced 7 25 20
    (by decide) (by decide)

/-- C10: the two no-op paths of `draw_replacedbox` treat the resource
differently: a hidden replaced box returns before the invalidation, so its
resource is retained (the box is returned unchanged) and a later paint of a
visible box holding that live resource succeeds and draws; a visible box
whose width or height is zero draws nothing yet still has its resource
invalidated, so the following paint attempt fails. -/
theorem replaced_noop_paths :
    (∀ (ctx : Ctx) (box : Box), box.style.visibility = Visibility.hidden →
      draw_replacedbox ctx box = .ok ([], box)) ∧
    (∀ (ctx : Ctx) (box : Box) (p : ℕ) (iw ih : ℚ),
      box.style.visibility ≠ Visibility.hidden →
      box.replacement = some (Replacement.image p iw ih) →
      box.width / iw ≠ 0 → box.height / ih ≠ 0 →
      draw_replacedbox ctx box =
        .ok ([DrawOp.save, DrawOp.translate box.content_box_x box.content_box_y,
              DrawOp.rectangle 0 0 box.width box.height, DrawOp.clip,
              DrawOp.scale (box.width / iw) (box.height / ih),
              DrawOp.patternSetExtend p CairoExtend.extendNone,
              DrawOp.patternSetFilter p
                (image_rendering_to_filter box.style.image_rendering),
              DrawOp.setSource p, DrawOp.paint, DrawOp.restore],
             box.set_replacement (some Replacement.removedMarker))) ∧
    (∀ (ctx : Ctx) (box : Box) (p : ℕ) (iw ih : ℚ),
      box.style.visibility ≠ Visibility.hidden →
      box.replacement = some (Replacement.image p iw ih) →
      box.width = 0 ∨ box.height = 0 →
      draw_replacedbox ctx box =
        .ok ([], box.set_replacement (some Replacement.removedMarker)) ∧
      draw_replacedbox ctx (box.set_replacement (some Replacement.removedMarker)) =
        .error "ValueError: box.replacement was already consumed") := by
  refine ⟨?_, ?_, ?_⟩
  · intro ctx box h
    simp [draw_replacedbox, h]
  · intro ctx box p iw ih hvis hrepl hw hh
    simp [draw_replacedbox, hvis, hrepl, hw, hh]
  · intro ctx box p iw ih hvis hrepl hzero
    constructor
    · rcases hzero with hz | hz <;>
        simp [draw_replacedbox, hvis, hrepl, hz]
    · simp [draw_replacedbox, Box.set_replacement_style,
        Box.set_replacement_replacement, hvis]

/-- A hidden replaced box holding a live image resource. -/
def hidden_replaced : Box :=
  .mk .blockReplaced 10 { plain_style with visibility := .hidden }
    { plain_geom with width := 50, height := 40 }
    [] none (some (.image 7 25 20)) 0 [] [] ([], []) 0 []

/-- A visible replaced box with zero content width. -/
def zero_width_replaced : Box :=
  .mk .blockReplaced 11 plain_style
    { plain_geom with width := 0, height := 40 }
    [] none (some (.image 7 25 20)) 0 [] [] ([], []) 0 []

/-- Witness for `replaced_noop_paths`: the hidden box keeps its resource (and
the same resource, held by the visible `test_replaced`, still paints), while
the zero-width visible box consumes it and a retry errors. -/
theorem replaced_noop_paths_witness :
    draw_replacedbox test_ctx hidden_replaced = .ok ([], hidden_replaced) ∧
    draw_replacedbox test_ctx test_replaced =
      .ok ([DrawOp.save,
            DrawOp.translate test_replaced.content_box_x test_replaced.content_box_y,
            DrawOp.rectangle 0 0 test_replaced.width test_replaced.height,
            DrawOp.clip,
            DrawOp.scale (test_replaced.width / 25) (test_replaced.height / 20),
            DrawOp.patternSetExtend 7 CairoExtend.extendNone,
            DrawOp.patternSetFilter 7
              (image_rendering_to_filter test_replaced.style.image_rendering),
            DrawOp.setSource 7, DrawOp.paint, DrawOp.restore],
           test_replaced.set_replacement (some Replacement.removedMarker)) ∧
    (draw_replacedbox test_ctx zero_width_replaced =
      .ok ([], zero_width_replaced.set_replacement (some Replacement.removedMarker)) ∧
     draw_replacedbox test_ctx
        (zero_width_replaced.set_replacement (some Replacement.removedMarker)) =
      .error "ValueError: box.replacement was already consumed") :=
  ⟨replaced_noop_paths.1 test_ctx hidden_replaced (by decide),
   replaced_noop_paths.2.1 test_ctx test_replaced 7 25 20 (by decide) (by decide)
     (by norm_num [test_replaced, plain_geom, Box.width, Box.geom])
     (by norm_num [test_replaced, plain_geom, Box.height, Box.geom]),
   replaced_noop_paths.2.2 test_ctx zero_width_replaced 7 25 20 (by decide)
     (by decide) (Or.inl (by decide))⟩

end WeasyDraw

namespace WeasyDraw

/-- One `half_max_width` loop step never decreases the running maximum. -/
theorem half_max_width_step_le (gh gw sk : ℕ) (bl : List (List BorderCell))
    (v : Bool) (a : ℚ) (yx : ℤ × ℤ) (b : ℚ)
    (h : half_max_width_step gh gw sk bl v a yx = .ok b) : a ≤ b := by
  unfold half_max_width_step at h
  split at h <;> dsimp only at h <;> split at h <;>
    first
      | (split at h
         · simp only [pure, Except.pure, Except.ok.injEq] at h
           subst h
           exact le_max_left _ _
         · exact absurd h (by simp))
      | (simp only [pure, Except.pure, Except.ok.injEq] at h
         subst h
         exact le_refl _)

/-- The `half_max_width` fold never decreases its accumulator. -/
theorem half_max_width_fold_le (gh gw sk : ℕ) (bl : List (List BorderCell))
    (v : Bool) :
    ∀ (pairs : List (ℤ × ℤ)) (a b : ℚ),
      pairs.foldlM (half_max_width_step gh gw sk bl v) a = .ok b → a ≤ b := by
  intro pairs
  induction pairs with
  | nil =>
    intro a b h
    simp only [List.foldlM_nil, pure, Except.pure, Except.ok.injEq] at h
    subst h
    exact le_refl _
  | cons p ps ih =>
    intro a b h
    rw [List.foldlM_cons] at h
    cases hstep : half_max_width_step gh gw sk bl v a p with
    | error e =>
      rw [hstep] at h
      simp [Except.bind, Bind.bind] at h
    | ok a' =>
      rw [hstep] at h
      simp only [Except.bind, Bind.bind] at h
      exact le_trans (half_max_width_step_le gh gw sk bl v a p a' hstep) (ih a' b h)

/-- A successful `half_max_width` result is nonnegative (it starts from 0 and
only takes maxima), so subtracting it at a segment start, as `add_vertical`
and `add_horizontal` do, can only move the endpoint outward. -/
theorem half_max_width_nonneg (gh gw sk : ℕ) (bl : List (List BorderCell))
    (pairs : List (ℤ × ℤ)) (v : Bool) (r : ℚ)
    (h : half_max_width gh gw sk bl pairs v = .ok r) : 0 ≤ r := by
  unfold half_max_width at h
  cases hfold : pairs.foldlM (half_max_width_step gh gw sk bl v) (0 : ℚ) with
  | error e =>
    rw [hfold] at h
    simp [Except.bind, Bind.bind] at h
  | ok m =>
    rw [hfold] at h
    simp only [Except.bind, Bind.bind, pure, Except.pure, Except.ok.injEq] at h
    subst h
    have hm := half_max_width_fold_le gh gw sk bl v pairs 0 m hfold
    positivity

/-- Helper: the segment produced by `add_horizontal`, with the corner
adjustments named: the start is `column_positions[x] - hm_1` and the end is
`column_positions[x + 1] + hm_2`, both moving outward for nonnegative
half-maxima. -/
theorem add_horizontal_extends (grid_height grid_width skipped_rows : ℕ)
    (vertical_borders horizontal_borders : List (List BorderCell))
    (column_positions row_positions : List ℚ) (x y : ℕ)
    (cell : BorderCell) (pos_y col_x col_x_next hm_1 hm_2 : ℚ)
    (hcell : (horizontal_borders[skipped_rows + y]?.bind
        (fun row => row[x]?)) = some cell)
    (hskip : ¬ (cell.width = 0 ∨ cell.color.alpha = 0))
    (hpos : row_positions[y]? = some pos_y)
    (hc1 : column_positions[x]? = some col_x)
    (hc2 : column_positions[x + 1]? = some col_x_next)
    (hm1 : half_max_width grid_height grid_width skipped_rows vertical_borders
        [((y : ℤ) - 1, (x : ℤ)), ((y : ℤ), (x : ℤ))] true = .ok hm_1)
    (hm2 : half_max_width grid_height grid_width skipped_rows vertical_borders
        [((y : ℤ) - 1, (x : ℤ) + 1), ((y : ℤ), (x : ℤ) + 1)] true = .ok hm_2) :
    add_horizontal grid_height grid_width skipped_rows vertical_borders
        horizontal_borders column_positions row_positions x y =
      .ok (some
        { score := cell.score, style := cell.style, width := cell.width,
          color := cell.color, side := Side.top
          edge_1 := ((col_x - hm_1, pos_y - cell.width / 2),
                     (col_x_next + hm_2, pos_y - cell.width / 2))
          edge_2 := ((col_x - hm_1, pos_y + cell.width / 2),
                     (col_x_next + hm_2, pos_y + cell.width / 2)) }) ∧
      0 ≤ hm_1 ∧ 0 ≤ hm_2 := by
  refine ⟨?_, half_max_width_nonneg _ _ _ _ _ _ _ hm1,
    half_max_width_nonneg _ _ _ _ _ _ _ hm2⟩
  simp [add_horizontal, hcell, hskip, hpos, hc1, hc2, hm1, hm2,
    Except.bind, Bind.bind, pure, Except.pure]

/-- Helper: the segment produced by `add_vertical`, with the corner
adjustments named: the top end is `row_positions[y] - hm_1` and the bottom
end `row_positions[y + 1] + hm_2`. -/
theorem add_vertical_extends (grid_height grid_width skipped_rows : ℕ)
    (vertical_borders horizontal_borders : List (List BorderCell))
    (column_positions row_positions : List ℚ) (x y : ℕ)
    (cell : BorderCell) (pos_x row_y row_y_next hm_1 hm_2 : ℚ)
    (hcell : (vertical_borders[skipped_rows + y]?.bind
        (fun row => row[x]?)) = some cell)
    (hskip : ¬ (cell.width = 0 ∨ cell.color.alpha = 0))
    (hpos : column_positions[x]? = some pos_x)
    (hr1 : row_positions[y]? = some row_y)
    (hr2 : row_positions[y + 1]? = some row_y_next)
    (hm1 : half_max_width grid_height grid_width skipped_rows horizontal_borders
        [((y : ℤ), (x : ℤ) - 1), ((y : ℤ), (x : ℤ))] false = .ok hm_1)
    (hm2 : half_max_width grid_height grid_width skipped_rows horizontal_borders
        [((y : ℤ) + 1, (x : ℤ) - 1), ((y : ℤ) + 1, (x : ℤ))] false = .ok hm_2) :
    add_vertical grid_height grid_width skipped_rows vertical_borders
        horizontal_borders column_positions row_positions x y =
      .ok (some
        { score := cell.score, style := cell.style, width := cell.width,
          color := cell.color, side := Side.left
          edge_1 := ((pos_x - cell.width / 2, row_y - hm_1),
                     (pos_x - cell.width / 2, row_y_next + hm_2))
          edge_2 := ((pos_x + cell.width / 2, row_y - hm_1),
                     (pos_x + cell.width / 2, row_y_next + hm_2)) }) ∧
      0 ≤ hm_1 ∧ 0 ≤ hm_2 := by
  refine ⟨?_, half_max_width_nonneg _ _ _ _ _ _ _ hm1,
    half_max_width_nonneg _ _ _ _ _ _ _ hm2⟩
  simp [add_vertical, hcell, hskip, hpos, hr1, hr2, hm1, hm2,
    Except.bind, Bind.bind, pure, Except.pure]

end WeasyDraw

namespace WeasyDraw

/-- A 2-row × 1-column collapsed-border grid whose two vertical borders in
column 0 have widths 4 and 6 (the perpendicular borders meeting the interior
horizontal grid line), plus the interior horizontal border of width 2. -/
def c1_vertical_borders : List (List BorderCell) :=
  [[⟨0, .solid, 4, black⟩, zero_cell], [⟨0, .solid, 6, black⟩, zero_cell]]

/-- Companion horizontal grid: only the interior line `(x = 0, y = 1)` has a
drawable border (width 2, score 1). -/
def c1_horizontal_borders : List (List BorderCell) :=
  [[zero_cell], [⟨1, .solid, 2, black⟩], [zero_cell]]

/-- C1, as stated, is false: with perpendicular borders of width 4 and 6
meeting the left corner of the interior horizontal segment (column positions
`[0, 30]`, row positions `[0, 10, 20]`), the segment start is placed at
`0 - 6/2 = -3`, i.e. moved *outward* by half the larger width, not inward to
`0 + 3` as the claimed shortening would require. -/
theorem collapsed_shortening_counterexample :
    add_horizontal 2 1 0 c1_vertical_borders c1_horizontal_borders
        [0, 30] [0, 10, 20] 0 1 =
      .ok (some ⟨1, .solid, 2, black, .top,
        ((-3, 9), (30, 9)), ((-3, 11), (30, 11))⟩) ∧
    (-3 : ℚ) = 0 - 6 / 2 ∧ ¬ ((-3 : ℚ) = 0 + 6 / 2) := by
  refine ⟨?_, by norm_num, by norm_num⟩
  norm_num [add_horizontal, half_max_width, half_max_width_step,
    c1_vertical_borders, c1_horizontal_borders, black, zero_cell,
    List.foldlM, Except.bind, Bind.bind, Except.pure, pure]

/-- C1 (amended): each collapsed-border segment's drawn extent is *extended*
at each end by half the maximum width of the up-to-two perpendicular borders
meeting at that corner (the half-maximum is nonnegative, so the endpoints
only move outward; overlap at the corners is then resolved by painting
higher-priority segments later, not by shortening). -/
theorem collapsed_segments_extend :
    (∀ (grid_height grid_width skipped_rows : ℕ)
        (vertical_borders horizontal_borders : List (List BorderCell))
        (column_positions row_positions : List ℚ) (x y : ℕ)
        (cell : BorderCell) (pos_y col_x col_x_next hm_1 hm_2 : ℚ),
      (horizontal_borders[skipped_rows + y]?.bind (fun row => row[x]?)) = some cell →
      ¬ (cell.width = 0 ∨ cell.color.alpha = 0) →
      row_positions[y]? = some pos_y →
      column_positions[x]? = some col_x →
      column_positions[x + 1]? = some col_x_next →
      half_max_width grid_height grid_width skipped_rows vertical_borders
        [((y : ℤ) - 1, (x : ℤ)), ((y : ℤ), (x : ℤ))] true = .ok hm_1 →
      half_max_width grid_height grid_width skipped_rows vertical_borders
        [((y : ℤ) - 1, (x : ℤ) + 1), ((y : ℤ), (x : ℤ) + 1)] true = .ok hm_2 →
      add_horizontal grid_height grid_width skipped_rows vertical_borders
          horizontal_borders column_positions row_positions x y =
        .ok (some
          { score := cell.score, style := cell.style, width := cell.width,
            color := cell.color, side := Side.top
            edge_1 := ((col_x - hm_1, pos_y - cell.width / 2),
                       (col_x_next + hm_2, pos_y - cell.width / 2))
            edge_2 := ((col_x - hm_1, pos_y + cell.width / 2),
                       (col_x_next + hm_2, pos_y + cell.width / 2)) }) ∧
        0 ≤ hm_1 ∧ 0 ≤ hm_2) ∧
    (∀ (grid_height grid_width skipped_rows : ℕ)
        (vertical_borders horizontal_borders : List (List BorderCell))
        (column_positions row_positions : List ℚ) (x y : ℕ)
        (cell : BorderCell) (pos_x row_y row_y_next hm_1 hm_2 : ℚ),
      (vertical_borders[skipped_rows + y]?.bind (fun row => row[x]?)) = some cell →
      ¬ (cell.width = 0 ∨ cell.color.alpha = 0) →
      column_positions[x]? = some pos_x →
      row_positions[y]? = some row_y →
      row_positions[y + 1]? = some row_y_next →
      half_max_width grid_height grid_width skipped_rows horizontal_borders
        [((y : ℤ), (x : ℤ) - 1), ((y : ℤ), (x : ℤ))] false = .ok hm_1 →
      half_max_width grid_height grid_width skipped_rows horizontal_borders
        [((y : ℤ) + 1, (x : ℤ) - 1), ((y : ℤ) + 1, (x : ℤ))] false = .ok hm_2 →
      add_vertical grid_height grid_width skipped_rows vertical_borders
          horizontal_borders column_positions row_positions x y =
        .ok (some
          { score := cell.score, style := cell.style, width := cell.width,
            color := cell.color, side := Side.left
            edge_1 := ((pos_x - cell.width / 2, row_y - hm_1),
                       (pos_x - cell.width / 2, row_y_next + hm_2))
            edge_2 := ((pos_x + cell.width / 2, row_y - hm_1),
                       (pos_x + cell.width / 2, row_y_next + hm_2)) }) ∧
        0 ≤ hm_1 ∧ 0 ≤ hm_2) :=
  ⟨fun gh gw sk vb hb cp rp x y cell pos_y c1 c2 h1 h2 hcell hskip hpos hc1 hc2 hm1 hm2 =>
    add_horizontal_extends gh gw sk vb hb cp rp x y cell pos_y c1 c2 h1 h2
      hcell hskip hpos hc1 hc2 hm1 hm2,
   fun gh gw sk vb hb cp rp x y cell pos_x r1 r2 h1 h2 hcell hskip hpos hr1 hr2 hm1 hm2 =>
    add_vertical_extends gh gw sk vb hb cp rp x y cell pos_x r1 r2 h1 h2
      hcell hskip hpos hr1 hr2 hm1 hm2⟩

/-- Witness for `collapsed_segments_extend` on the width-4 / width-6 corner:
the horizontal segment start lands at `0 - 3` and the vertical segment is
extended by `0` above and `1` below. -/
theorem collapsed_segments_extend_witness :
    (add_horizontal 2 1 0 c1_vertical_borders c1_horizontal_borders
        [0, 30] [0, 10, 20] 0 1 =
      .ok (some
        { score := (1 : ℚ), style := .solid, width := 2, color := black,
          side := Side.top
          edge_1 := ((0 - 3, 10 - 2 / 2), (30 + 0, 10 - 2 / 2))
          edge_2 := ((0 - 3, 10 + 2 / 2), (30 + 0, 10 + 2 / 2)) }) ∧
      (0 : ℚ) ≤ 3 ∧ (0 : ℚ) ≤ 0) ∧
    (add_vertical 2 1 0 c1_vertical_borders c1_horizontal_borders
        [0, 30] [0, 10, 20] 0 0 =
      .ok (some
        { score := (0 : ℚ), style := .solid, width := 4, color := black,
          side := Side.left
          edge_1 := ((0 - 4 / 2, 0 - 0), (0 - 4 / 2, 10 + 1))
          edge_2 := ((0 + 4 / 2, 0 - 0), (0 + 4 / 2, 10 + 1)) }) ∧
      (0 : ℚ) ≤ 0 ∧ (0 : ℚ) ≤ 1) :=
  ⟨collapsed_segments_extend.1 2 1 0 c1_vertical_borders c1_horizontal_borders
      [0, 30] [0, 10, 20] 0 1 ⟨1, .solid, 2, black⟩ 10 0 30 3 0
      (by decide) (by decide) (by decide) (by decide) (by decide)
      (by norm_num [half_max_width, half_max_width_step, c1_vertical_borders,
        black, zero_cell, List.foldlM, Except.bind, Bind.bind, Except.pure, pure])
      (by norm_num [half_max_width, half_max_width_step, c1_vertical_borders,
        black, zero_cell, List.foldlM, Except.bind, Bind.bind, Except.pure, pure]),
   collapsed_segments_extend.2 2 1 0 c1_vertical_borders c1_horizontal_borders
      [0, 30] [0, 10, 20] 0 0 ⟨0, .solid, 4, black⟩ 0 0 10 0 1
      (by decide) (by decide) (by decide) (by decide) (by decide)
      (by norm_num [half_max_width, half_max_width_step, c1_horizontal_borders,
        black, zero_cell, List.foldlM, Except.bind, Bind.bind, Except.pure, pure])
      (by norm_num [half_max_width, half_max_width_step, c1_horizontal_borders,
        black, zero_cell, List.foldlM, Except.bind, Bind.bind, Except.pure, pure])⟩

end WeasyDraw

namespace WeasyDraw

/-- A visible single-cell table row (height 10). -/
def c2_row : Box :=
  .mk .tableRow 21 plain_style { plain_geom with height := 10 }
    [] none none 0 [] [] ([], []) 0 []

/-- Its row group. -/
def c2_row_group : Box :=
  .mk .tableRowGroup 22 plain_style plain_geom [.ofBox c2_row] none none 0
    [] [] ([], []) 0 []

/-- A 1×1 collapsed-borders table with `column_widths = [30]`,
`column_positions = [0]` and an all-zero conflict grid. -/
def c2_table : Box :=
  .mk .table 20 { plain_style with border_collapse := .collapse } plain_geom
    [.ofBox c2_row_group] none none 0 [30] [0]
    ([[zero_cell, zero_cell]], [[zero_cell], [zero_cell]]) 0 []

/-- C2 is a code bug: `draw_collapsed_borders` runs
`column_positions += [column_positions[-1] + column_widths[-1]]` on the very
list object stored in `table.column_positions` (Python list `+=` extends in
place), so painting a collapsed-borders table appends the synthetic
end-of-last-column entry to the table's own `column_positions` — here the
table enters with `[0]` and leaves with `[0, 30]` — even though the adjacent
comment claims a copy is made and the spec promises no mutation outside the
replaced-resource invalidation. -/
theorem collapsed_borders_mutate_column_positions :
    draw_collapsed_borders test_ctx c2_table =
      .ok ([], c2_table.set_column_positions [0, 30]) ∧
    c2_table.column_positions = [0] ∧
    (c2_table.set_column_positions [0, 30]).column_positions = [0, 30] ∧
    (c2_table.set_column_positions [0, 30]).column_positions ≠
      c2_table.column_positions := by
  refine ⟨?_, by decide, by decide, by decide⟩
  norm_num [draw_collapsed_borders, table_rows, collect_collapsed_segments,
    add_vertical, add_horizontal, half_max_width, half_max_width_step,
    sort_by_score, c2_table, c2_row_group, c2_row, plain_style, plain_geom,
    zero_cell, as_box, Box.children, Box.height, Box.position_y, Box.geom,
    Box.column_widths, Box.column_positions, Box.collapsed_border_grid,
    Box.skipped_rows, Box.set_column_positions,
    List.foldlM, List.mapM, List.mapM.loop, List.range, List.range.loop,
    Except.bind, Bind.bind, Except.pure, pure]

end WeasyDraw

namespace WeasyDraw

/-- A hidden style with collapsed table borders. -/
def hidden_collapse_style : Style :=
  { plain_style with visibility := .hidden, border_collapse := .collapse }

/-- A hidden single-cell table row (height 10). -/
def c9_row : Box :=
  .mk .tableRow 41 { plain_style with visibility := .hidden }
    { plain_geom with height := 10 } [] none none 0 [] [] ([], []) 0 []

/-- Its hidden row group. -/
def c9_row_group : Box :=
  .mk .tableRowGroup 42 { plain_style with visibility := .hidden } plain_geom
    [.ofBox c9_row] none none 0 [] [] ([], []) 0 []

/-- A hidden 1×1 collapsed-borders table whose conflict grid carries one
drawable horizontal border (width 2, black) on its top grid line. -/
def c9_hidden_table : Box :=
  .mk .table 40 hidden_collapse_style plain_geom
    [.ofBox c9_row_group] none none 0 [30] [0]
    ([[zero_cell, zero_cell]], [[⟨1, .solid, 2, black⟩], [zero_cell]]) 0 []

/-- The operations `draw_box_background_and_border` emits for the hidden
table: the full border segment for the top grid line. -/
def c9_expected_ops : List DrawOp :=
  [DrawOp.save, DrawOp.setSourceRgba 0 0 0 1,
   DrawOp.moveTo 0 (-1), DrawOp.lineTo 30 (-1), DrawOp.lineTo 30 1,
   DrawOp.lineTo 0 1, DrawOp.lineTo 0 (-1), DrawOp.clip,
   DrawOp.paint, DrawOp.restore]

/-- C9, as stated, is false: `draw_collapsed_borders` performs no visibility
check, so a table with `visibility: hidden` and collapsed borders still has
its border segments painted — the hidden table above produces a non-empty
operation list (one full solid border segment). -/
theorem hidden_table_collapsed_borders_drawn :
    draw_box_background_and_border test_ctx test_page c9_hidden_table =
      .ok (c9_expected_ops, c9_hidden_table.set_column_positions [0, 30]) ∧
    c9_expected_ops ≠ [] ∧
    c9_hidden_table.style.visibility = Visibility.hidden := by
  refine ⟨?_, by simp [c9_expected_ops], by decide⟩
  simp +decide [draw_box_background_and_border, draw_box_background, draw_border,
    draw_background, draw_collapsed_borders, table_rows, collect_collapsed_segments,
    add_vertical, add_horizontal, half_max_width, half_max_width_step,
    sort_by_score, insert_by_score,
    draw_border_segment, hypot_exact, python_round, xy_offset,
    c9_hidden_table, c9_row_group, c9_row, hidden_collapse_style, plain_style,
    plain_geom, zero_cell, black, test_ctx, test_page, c9_expected_ops,
    as_box, Box.children, Box.height, Box.position_y, Box.geom, Box.style, Box.tag,
    Box.column_widths, Box.column_positions, Box.collapsed_border_grid,
    Box.skipped_rows, Box.set_column_positions, Box.column_groups, Box.objectId,
    border_side_width, Ctx.user_to_device, Ctx.user_to_device_distance, RMat.id,
    List.foldlM, List.mapM, List.mapM.loop, List.range, List.range.loop,
    Except.bind, Bind.bind, Except.pure, pure]

/-- A hidden inline box whose only child is a visible text run. -/
def c9_visible_text : Box :=
  .mk .text 31 plain_style { plain_geom with width := 50 } [] none none 1
    [] [] ([], []) 0 []

/-- The hidden inline parent of `c9_visible_text`. -/
def c9_hidden_inline : Box :=
  .mk .inline 30 { plain_style with visibility := .hidden } plain_geom
    [.ofBox c9_visible_text] none none 0 [] [] ([], []) 0 []

/-- C9 (amended): a box with `visibility: hidden` gets no background, no
per-side border, no replaced content and no text or decoration operations,
and a hidden non-table box contributes no operations at all to
`draw_box_background_and_border`, while descendants that are not themselves
hidden still paint (the hidden inline box's visible text child is drawn);
however, the collapsed borders of a hidden table are still painted, because
`draw_collapsed_borders` has no visibility check. -/
theorem hidden_box_draws_nothing :
    (∀ (ctx : Ctx) (page box : Box),
      box.style.visibility = Visibility.hidden →
      draw_box_background ctx page box = []) ∧
    (∀ (ctx : Ctx) (box : Box),
      box.style.visibility = Visibility.hidden →
      draw_border ctx box = []) ∧
    (∀ (ctx : Ctx) (box : Box),
      box.style.visibility = Visibility.hidden →
      draw_replacedbox ctx box = .ok ([], box)) ∧
    (∀ (ctx : Ctx) (textbox : Box),
      textbox.style.visibility = Visibility.hidden →
      textbox.style.font_size ≠ 0 →
      draw_text ctx textbox = .ok []) ∧
    (∀ (ctx : Ctx) (page box : Box),
      box.style.visibility = Visibility.hidden →
      box.tag ≠ BoxTag.table →
      draw_box_background_and_border ctx page box = .ok ([], box)) ∧
    draw_inline_level_box test_ctx test_page c9_hidden_inline =
      .ok [DrawOp.moveTo 0 0, DrawOp.setSourceRgba 0 0 0 1,
           DrawOp.showFirstLine 1 false] ∧
    (draw_box_background_and_border test_ctx test_page c9_hidden_table).isOk =
      true ∧
    (∀ ops table_after,
      draw_box_background_and_border test_ctx test_page c9_hidden_table =
        .ok (ops, table_after) → ops ≠ []) := by
  refine ⟨?_, ?_, ?_, ?_, ?_, ?_, ?_, ?_⟩
  · intro ctx page box h
    simp [draw_box_background, h]
  · intro ctx box h
    simp [draw_border, h]
  · intro ctx box h
    simp [draw_replacedbox, h]
  · intro ctx textbox h hf
    simp [draw_text, h, hf]
  · intro ctx page box h ht
    simp [draw_box_background_and_border, draw_box_background, draw_border,
      h, ht, Except.bind, Bind.bind, pure, Except.pure]
  · simp +decide [draw_inline_level_box, draw_box_background, draw_border,
      draw_text, draw_inline_children, c9_hidden_inline, c9_visible_text,
      plain_style, plain_geom, test_ctx, test_page,
      Box.style, Box.tag, Box.geom, Box.position_x, Box.position_y,
      Box.baseline, Box.pango_layout, Box.children,
      Except.bind, Bind.bind, Except.pure, pure]
  · simp +decide [draw_box_background_and_border, draw_box_background, draw_border,
      draw_background, draw_collapsed_borders, table_rows, collect_collapsed_segments,
      add_vertical, add_horizontal, half_max_width, half_max_width_step,
      sort_by_score, insert_by_score,
      draw_border_segment, hypot_exact, python_round, xy_offset,
      c9_hidden_table, c9_row_group, c9_row, hidden_collapse_style, plain_style,
      plain_geom, zero_cell, black, test_ctx, test_page,
      as_box, Box.children, Box.height, Box.position_y, Box.geom, Box.style, Box.tag,
      Box.column_widths, Box.column_positions, Box.collapsed_border_grid,
      Box.skipped_rows, Box.set_column_positions, Box.column_groups, Box.objectId,
      border_side_width, Ctx.user_to_device, Ctx.user_to_device_distance, RMat.id,
      List.foldlM, List.mapM, List.mapM.loop, List.range, List.range.loop,
      Except.bind, Bind.bind, Except.pure, pure]
  · intro ops table_after h
    have hexp :
        draw_box_background_and_border test_ctx test_page c9_hidden_table =
          .ok (c9_expected_ops, c9_hidden_table.set_column_positions [0, 30]) := by
      simp +decide [draw_box_background_and_border, draw_box_background, draw_border,
        draw_background, draw_collapsed_borders, table_rows, collect_collapsed_segments,
        add_vertical, add_horizontal, half_max_width, half_max_width_step,
        sort_by_score, insert_by_score,
        draw_border_segment, hypot_exact, python_round, xy_offset,
        c9_hidden_table, c9_row_group, c9_row, hidden_collapse_style, plain_style,
        plain_geom, zero_cell, black, test_ctx, test_page, c9_expected_ops,
        as_box, Box.children, Box.height, Box.position_y, Box.geom, Box.style, Box.tag,
        Box.column_widths, Box.column_positions, Box.collapsed_border_grid,
        Box.skipped_rows, Box.set_column_positions, Box.column_groups, Box.objectId,
        border_side_width, Ctx.user_to_device, Ctx.user_to_device_distance, RMat.id,
        List.foldlM, List.mapM, List.mapM.loop, List.range, List.range.loop,
        Except.bind, Bind.bind, Except.pure, pure]
    rw [hexp] at h
    have hops : ops = c9_expected_ops := by
      cases h
      rfl
    subst hops
    simp [c9_expected_ops]

/-- Witness for `hidden_box_draws_nothing` on concrete hidden boxes. -/
theorem hidden_box_draws_nothing_witness :
    draw_box_background test_ctx test_page c9_hidden_inline = [] ∧
    draw_border test_ctx c9_hidden_inline = [] ∧
    draw_replacedbox test_ctx hidden_replaced = .ok ([], hidden_replaced) ∧
    draw_text test_ctx
        (Box.mk .text 32 { plain_style with visibility := .hidden }
          plain_geom [] none none 2 [] [] ([], []) 0 []) = .ok [] ∧
    draw_box_background_and_border test_ctx test_page c9_hidden_inline =
      .ok ([], c9_hidden_inline) :=
  ⟨hidden_box_draws_nothing.1 test_ctx test_page c9_hidden_inline (by decide),
   hidden_box_draws_nothing.2.1 test_ctx c9_hidden_inline (by decide),
   hidden_box_draws_nothing.2.2.1 test_ctx hidden_replaced (by decide),
   hidden_box_draws_nothing.2.2.2.1 test_ctx
     (Box.mk .text 32 { plain_style with visibility := .hidden }
       plain_geom [] none none 2 [] [] ([], []) 0 [])
     (by decide) (by norm_num [Box.style, plain_style]),
   hidden_box_draws_nothing.2.2.2.2.1 test_ctx test_page c9_hidden_inline
     (by decide) (by decide)⟩

end WeasyDraw

deriving instance DecidableEq for Except

namespace WeasyDraw

/-- Shared decomposition of `draw_stacking_context`: when every point's
sub-computation succeeds, the emitted sequence is exactly the save, the two
clips, the optional group push, the transform operations, then the results of
points 2–9 in order, the optional group pop and composite, and the restore. -/
theorem draw_stacking_context_decompose (ctx : Ctx) (page box : Box)
    (block_level_boxes blocks_and_cells : List Box)
    (negative_z_contexts float_contexts zero_z_contexts positive_z_contexts :
      List StackingContext)
    (own negz blocks floats inline_ops p7_root p7_rest zeroz posz : List DrawOp)
    (h2 : draw_point_2 (apply_2d_transforms ctx box).2 page box = .ok own)
    (h3 : draw_stacking_contexts (apply_2d_transforms ctx box).2
      negative_z_contexts = .ok negz)
    (h4 : draw_block_level_boxes (apply_2d_transforms ctx box).2 page
      block_level_boxes = .ok blocks)
    (h5 : draw_stacking_contexts (apply_2d_transforms ctx box).2
      float_contexts = .ok floats)
    (h6 : (if box.tag = BoxTag.inline then
        draw_inline_level_box (apply_2d_transforms ctx box).2 page box
      else pure []) = .ok inline_ops)
    (h7 : draw_point_7 (apply_2d_transforms ctx box).2 page box = .ok p7_root)
    (h7b : draw_point_7_list (apply_2d_transforms ctx box).2 page
      blocks_and_cells = .ok p7_rest)
    (h8 : draw_stacking_contexts (apply_2d_transforms ctx box).2
      zero_z_contexts = .ok zeroz)
    (h9 : draw_stacking_contexts (apply_2d_transforms ctx box).2
      positive_z_contexts = .ok posz) :
    draw_stacking_context ctx
        (.mk page box block_level_boxes blocks_and_cells negative_z_contexts
          float_contexts zero_z_contexts positive_z_contexts) =
      .ok ([DrawOp.save] ++ stacking_clip_ops box ++ overflow_clip_ops box ++
        (if box.style.opacity < 1 then [DrawOp.pushGroup] else []) ++
        (apply_2d_transforms ctx box).1 ++
        own ++ negz ++ blocks ++ floats ++ inline_ops ++ p7_root ++ p7_rest ++
        zeroz ++ posz ++
        (if box.style.opacity < 1 then
          [DrawOp.popGroupToSource, DrawOp.paintWithAlpha box.style.opacity]
         else []) ++
        [DrawOp.restore]) := by
  by_cases htag : box.tag = BoxTag.inline
  · rw [if_pos htag] at h6
    rw [draw_stacking_context]
    simp only [htag, eq_self_iff_true, if_true, h2, h3, h4, h5, h6, h7, h7b,
      h8, h9, Except.bind, Bind.bind, pure, Except.pure]
  · rw [if_neg htag] at h6
    have h6' : inline_ops = [] := by
      simpa [pure, Except.pure] using h6.symm
    subst h6'
    rw [draw_stacking_context]
    simp only [if_neg htag, h2, h3, h4, h5, h7, h7b, h8, h9,
      Except.bind, Bind.bind, pure, Except.pure, List.append_nil,
      List.nil_append]

/-- The `clip` property clip emits only rectangle/clip operations: no group
push or pop. -/
theorem stacking_clip_ops_no_group (box : Box) :
    (stacking_clip_ops box).countP is_push_group = 0 ∧
    (stacking_clip_ops box).countP is_pop_group = 0 := by
  unfold stacking_clip_ops
  rcases box.style.clip with _ | ⟨t, r, b, l⟩ <;>
    simp [List.countP_cons, is_push_group, is_pop_group]

/-- The `overflow` clip emits only rectangle/clip operations: no group push
or pop. -/
theorem overflow_clip_ops_no_group (box : Box) :
    (overflow_clip_ops box).countP is_push_group = 0 ∧
    (overflow_clip_ops box).countP is_pop_group = 0 := by
  unfold overflow_clip_ops
  by_cases h : box.style.overflow ≠ Overflow.visible <;>
    simp [h, List.countP_cons, is_push_group, is_pop_group]

end WeasyDraw

namespace WeasyDraw

/-- C3: for every stacking context whose per-point sub-computations succeed,
the emitted draw-call sequence follows the fixed painting order: the root's
own background and border (painted only when the root is a block, margin or
inline-block box, via point 2), then all negative-z child contexts in order,
then the backgrounds and borders of the in-flow block-level descendants in
document order, then float child contexts, then inline content, then the
marker / replaced / line-box content of the root and the blocks-and-cells
list, then zero-z child contexts, then positive-z child contexts — all inside
the save/clip/group/transform prologue and the group-pop/restore epilogue. -/
theorem stacking_context_painting_order (ctx : Ctx) (page box : Box)
    (block_level_boxes blocks_and_cells : List Box)
    (negative_z_contexts float_contexts zero_z_contexts positive_z_contexts :
      List StackingContext)
    (own negz blocks floats inline_ops p7_root p7_rest zeroz posz : List DrawOp)
    (h2 : draw_point_2 (apply_2d_transforms ctx box).2 page box = .ok own)
    (h3 : draw_stacking_contexts (apply_2d_transforms ctx box).2
      negative_z_contexts = .ok negz)
    (h4 : draw_block_level_boxes (apply_2d_transforms ctx box).2 page
      block_level_boxes = .ok blocks)
    (h5 : draw_stacking_contexts (apply_2d_transforms ctx box).2
      float_contexts = .ok floats)
    (h6 : (if box.tag = BoxTag.inline then
        draw_inline_level_box (apply_2d_transforms ctx box).2 page box
      else pure []) = .ok inline_ops)
    (h7 : draw_point_7 (apply_2d_transforms ctx box).2 page box = .ok p7_root)
    (h7b : draw_point_7_list (apply_2d_transforms ctx box).2 page
      blocks_and_cells = .ok p7_rest)
    (h8 : draw_stacking_contexts (apply_2d_transforms ctx box).2
      zero_z_contexts = .ok zeroz)
    (h9 : draw_stacking_contexts (apply_2d_transforms ctx box).2
      positive_z_contexts = .ok posz) :
    draw_stacking_context ctx
        (.mk page box block_level_boxes blocks_and_cells negative_z_contexts
          float_contexts zero_z_contexts positive_z_contexts) =
      .ok ([DrawOp.save] ++ stacking_clip_ops box ++ overflow_clip_ops box ++
        (if box.style.opacity < 1 then [DrawOp.pushGroup] else []) ++
        (apply_2d_transforms ctx box).1 ++
        own ++ negz ++ blocks ++ floats ++ inline_ops ++ p7_root ++ p7_rest ++
        zeroz ++ posz ++
        (if box.style.opacity < 1 then
          [DrawOp.popGroupToSource, DrawOp.paintWithAlpha box.style.opacity]
         else []) ++
        [DrawOp.restore]) :=
  draw_stacking_context_decompose ctx page box block_level_boxes
    blocks_and_cells negative_z_contexts float_contexts zero_z_contexts
    positive_z_contexts own negz blocks floats inline_ops p7_root p7_rest
    zeroz posz h2 h3 h4 h5 h6 h7 h7b h8 h9

/-- A one-box leaf stacking context. -/
def c3_leaf (oid : ℕ) (x y : ℚ) (c : Color) : StackingContext :=
  .mk test_page (simple_block oid x y c) [] [] [] [] [] []

/-- The root of the painting-order scenario: a red block. -/
def c3_root : Box := simple_block 1 0 0 red

/-- First in-flow block descendant (green). -/
def c3_green : Box := simple_block 2 0 20 ⟨0, 1, 0, 1⟩

/-- Second in-flow block descendant (blue). -/
def c3_blue : Box := simple_block 3 0 40 ⟨0, 0, 1, 1⟩

/-- The spec's painting-order scenario: one negative-z child (yellow), two
in-flow block descendants (green then blue), one positive-z child (purple). -/
def c3_scenario : StackingContext :=
  .mk test_page c3_root [c3_green, c3_blue] [c3_green, c3_blue]
    [c3_leaf 4 0 60 ⟨1, 1, 0, 1⟩] [] [] [c3_leaf 5 0 80 ⟨1, 0, 1, 1⟩]

/-- Witness for `stacking_context_painting_order` on the spec's scenario:
own background, then the negative-z subtree, then the two descendants'
backgrounds in document order, then the positive-z subtree. -/
theorem stacking_context_painting_order_witness :
    draw_stacking_context test_ctx c3_scenario =
      .ok ([DrawOp.save] ++ stacking_clip_ops c3_root ++
        overflow_clip_ops c3_root ++
        (if c3_root.style.opacity < 1 then [DrawOp.pushGroup] else []) ++
        (apply_2d_transforms test_ctx c3_root).1 ++
        [DrawOp.save, DrawOp.rectangle 0 0 10 10, DrawOp.clip,
         DrawOp.setSourceRgba 1 0 0 1, DrawOp.paint, DrawOp.restore] ++
        [DrawOp.save, DrawOp.save, DrawOp.rectangle 0 60 10 10, DrawOp.clip,
         DrawOp.setSourceRgba 1 1 0 1, DrawOp.paint, DrawOp.restore,
         DrawOp.restore] ++
        [DrawOp.save, DrawOp.rectangle 0 20 10 10, DrawOp.clip,
         DrawOp.setSourceRgba 0 1 0 1, DrawOp.paint, DrawOp.restore,
         DrawOp.save, DrawOp.rectangle 0 40 10 10, DrawOp.clip,
         DrawOp.setSourceRgba 0 0 1 1, DrawOp.paint, DrawOp.restore] ++
        [] ++ [] ++ [] ++ [] ++ [] ++
        [DrawOp.save, DrawOp.save, DrawOp.rectangle 0 80 10 10, DrawOp.clip,
         DrawOp.setSourceRgba 1 0 1 1, DrawOp.paint, DrawOp.restore,
         DrawOp.restore] ++
        (if c3_root.style.opacity < 1 then
          [DrawOp.popGroupToSource, DrawOp.paintWithAlpha c3_root.style.opacity]
         else []) ++
        [DrawOp.restore]) :=
  stacking_context_painting_order test_ctx test_page c3_root
    [c3_green, c3_blue] [c3_green, c3_blue]
    [c3_leaf 4 0 60 ⟨1, 1, 0, 1⟩] [] [] [c3_leaf 5 0 80 ⟨1, 0, 1, 1⟩]
    [DrawOp.save, DrawOp.rectangle 0 0 10 10, DrawOp.clip,
     DrawOp.setSourceRgba 1 0 0 1, DrawOp.paint, DrawOp.restore]
    [DrawOp.save, DrawOp.save, DrawOp.rectangle 0 60 10 10, DrawOp.clip,
     DrawOp.setSourceRgba 1 1 0 1, DrawOp.paint, DrawOp.restore,
     DrawOp.restore]
    [DrawOp.save, DrawOp.rectangle 0 20 10 10, DrawOp.clip,
     DrawOp.setSourceRgba 0 1 0 1, DrawOp.paint, DrawOp.restore,
     DrawOp.save, DrawOp.rectangle 0 40 10 10, DrawOp.clip,
     DrawOp.setSourceRgba 0 0 1 1, DrawOp.paint, DrawOp.restore]
    [] [] [] [] []
    [DrawOp.save, DrawOp.save, DrawOp.rectangle 0 80 10 10, DrawOp.clip,
     DrawOp.setSourceRgba 1 0 1 1, DrawOp.paint, DrawOp.restore,
     DrawOp.restore]
    (by decide) (by decide) (by decide) (by decide) (by decide) (by decide)
    (by decide) (by decide) (by decide)

end WeasyDraw

namespace WeasyDraw

/-- C4: for a stacking context whose root box has `opacity < 1`, exactly one
compositing-group push is emitted after the (group-free) save/clip prologue
and before any of the context's own or descendant draw operations, and
exactly one pop followed by paint-with-alpha(opacity) after all of them,
bracketing the whole subtree; when `opacity` is not below 1 the same
operation sequence is emitted with no push, pop or alpha-paint added at
all. -/
theorem opacity_group_brackets (ctx : Ctx) (page box : Box)
    (block_level_boxes blocks_and_cells : List Box)
    (negative_z_contexts float_contexts zero_z_contexts positive_z_contexts :
      List StackingContext)
    (own negz blocks floats inline_ops p7_root p7_rest zeroz posz : List DrawOp)
    (h2 : draw_point_2 (apply_2d_transforms ctx box).2 page box = .ok own)
    (h3 : draw_stacking_contexts (apply_2d_transforms ctx box).2
      negative_z_contexts = .ok negz)
    (h4 : draw_block_level_boxes (apply_2d_transforms ctx box).2 page
      block_level_boxes = .ok blocks)
    (h5 : draw_stacking_contexts (apply_2d_transforms ctx box).2
      float_contexts = .ok floats)
    (h6 : (if box.tag = BoxTag.inline then
        draw_inline_level_box (apply_2d_transforms ctx box).2 page box
      else pure []) = .ok inline_ops)
    (h7 : draw_point_7 (apply_2d_transforms ctx box).2 page box = .ok p7_root)
    (h7b : draw_point_7_list (apply_2d_transforms ctx box).2 page
      blocks_and_cells = .ok p7_rest)
    (h8 : draw_stacking_contexts (apply_2d_transforms ctx box).2
      zero_z_contexts = .ok zeroz)
    (h9 : draw_stacking_contexts (apply_2d_transforms ctx box).2
      positive_z_contexts = .ok posz) :
    (box.style.opacity < 1 →
      draw_stacking_context ctx
          (.mk page box block_level_boxes blocks_and_cells negative_z_contexts
            float_contexts zero_z_contexts positive_z_contexts) =
        .ok (([DrawOp.save] ++ stacking_clip_ops box ++ overflow_clip_ops box) ++
          [DrawOp.pushGroup] ++
          ((apply_2d_transforms ctx box).1 ++ own ++ negz ++ blocks ++ floats ++
            inline_ops ++ p7_root ++ p7_rest ++ zeroz ++ posz) ++
          [DrawOp.popGroupToSource, DrawOp.paintWithAlpha box.style.opacity,
           DrawOp.restore])) ∧
    (¬ box.style.opacity < 1 →
      draw_stacking_context ctx
          (.mk page box block_level_boxes blocks_and_cells negative_z_contexts
            float_contexts zero_z_contexts positive_z_contexts) =
        .ok (([DrawOp.save] ++ stacking_clip_ops box ++ overflow_clip_ops box) ++
          ((apply_2d_transforms ctx box).1 ++ own ++ negz ++ blocks ++ floats ++
            inline_ops ++ p7_root ++ p7_rest ++ zeroz ++ posz) ++
          [DrawOp.restore])) ∧
    ([DrawOp.save] ++ stacking_clip_ops box ++
        overflow_clip_ops box).countP is_push_group = 0 ∧
    ([DrawOp.save] ++ stacking_clip_ops box ++
        overflow_clip_ops box).countP is_pop_group = 0 := by
  have hd := draw_stacking_context_decompose ctx page box block_level_boxes
    blocks_and_cells negative_z_contexts float_contexts zero_z_contexts
    positive_z_contexts own negz blocks floats inline_ops p7_root p7_rest
    zeroz posz h2 h3 h4 h5 h6 h7 h7b h8 h9
  refine ⟨?_, ?_, ?_, ?_⟩
  · intro hlt
    rw [hd]
    simp only [if_pos hlt, List.append_assoc, List.cons_append,
      List.nil_append, List.singleton_append]
  · intro hge
    rw [hd]
    simp only [if_neg hge, List.append_assoc, List.cons_append,
      List.nil_append, List.singleton_append, List.append_nil]
  · simp [List.countP_append, is_push_group,
      (stacking_clip_ops_no_group box).1, (overflow_clip_ops_no_group box).1]
  · simp [List.countP_append, is_pop_group,
      (stacking_clip_ops_no_group box).2, (overflow_clip_ops_no_group box).2]

/-- A half-transparent red block (`opacity := 1/2`, written with `mkRat` so
the value is a literal rational). -/
def c4_box : Box :=
  .mk .block 6 { plain_style with background_color := red, opacity := mkRat 1 2 }
    { plain_geom with
      border_box_x := 0, border_box_y := 0, border_width := 10
      border_height := 10, padding_box_x := 0, padding_box_y := 0
      padding_width := 10, padding_height := 10, content_box_x := 0
      content_box_y := 0, width := 10, height := 10 }
    [] none none 0 [] [] ([], []) 0 []

/-- A stacking context whose root has opacity one half and one zero-z child
context (a green block). -/
def c4_scenario : StackingContext :=
  .mk test_page c4_box [] [] [] [] [c3_leaf 7 0 20 ⟨0, 1, 0, 1⟩] []

/-- Witness for `opacity_group_brackets`: the half-opacity context emits
exactly one push before its own and its child's operations and one
pop-plus-alpha-paint after them. -/
theorem opacity_group_brackets_witness :
    draw_stacking_context test_ctx c4_scenario =
      .ok (([DrawOp.save] ++ stacking_clip_ops c4_box ++
          overflow_clip_ops c4_box) ++
        [DrawOp.pushGroup] ++
        ((apply_2d_transforms test_ctx c4_box).1 ++
          [DrawOp.save, DrawOp.rectangle 0 0 10 10, DrawOp.clip,
           DrawOp.setSourceRgba 1 0 0 1, DrawOp.paint, DrawOp.restore] ++
          [] ++ [] ++ [] ++ [] ++ [] ++ [] ++
          [DrawOp.save, DrawOp.save, DrawOp.rectangle 0 20 10 10, DrawOp.clip,
           DrawOp.setSourceRgba 0 1 0 1, DrawOp.paint, DrawOp.restore,
           DrawOp.restore] ++ []) ++
        [DrawOp.popGroupToSource, DrawOp.paintWithAlpha c4_box.style.opacity,
         DrawOp.restore]) :=
  (opacity_group_brackets test_ctx test_page c4_box [] [] [] []
    [c3_leaf 7 0 20 ⟨0, 1, 0, 1⟩] []
    [DrawOp.save, DrawOp.rectangle 0 0 10 10, DrawOp.clip,
     DrawOp.setSourceRgba 1 0 0 1, DrawOp.paint, DrawOp.restore]
    [] [] [] [] [] []
    [DrawOp.save, DrawOp.save, DrawOp.rectangle 0 20 10 10, DrawOp.clip,
     DrawOp.setSourceRgba 0 1 0 1, DrawOp.paint, DrawOp.restore,
     DrawOp.restore]
    []
    (by decide) (by decide) (by decide) (by decide) (by decide) (by decide)
    (by decide) (by decide) (by decide)).1 (by decide)

end WeasyDraw
